import Mathlib

/-!
Shallow embedding of the coordinate-extraction core of `src/app.py`.

Modelling conventions:
* Python strings are Lean `String`s; most manipulation happens on `List Char`.
* Python `float` arithmetic is modelled exactly over `ℚ` (real-number
  semantics of the algebraic conversion formula).
* A raised Python exception is modelled by `Except.error`: `KeyError` for a
  missing pandas column label, `ValueError` for a failed `float()` conversion.
* The regex `padrao` of `app.py` line 19 is a plain linear sequence of greedy
  character-class repetitions (no alternation, no nesting), so it is embedded
  as a list of items, each a character class with repetition bounds and a
  capture flag, executed by a backtracking matcher (`matchSeq`) and a
  left-to-right non-overlapping scan (`findAll`) mirroring `re.findall`.
* Python `\d` and `\s` are modelled by their ASCII parts (`Char.isDigit`,
  `Char.isWhitespace`); `str.upper()` is modelled on ASCII letters plus `ã`,
  the only non-ASCII letter occurring in the sentinel strings.
-/

/-- The single error kind raised by a missing pandas column label. -/
inductive PyError where
  | keyError : PyError
  | valueError : PyError
deriving DecidableEq

deriving instance DecidableEq for Except

/-- The apostrophe character `'` (code 39) appearing in the regex. -/
def apostChar : Char := Char.ofNat 39

/-- The double-quote character `"` (code 34) appearing in the regex. -/
def quoteChar : Char := Char.ofNat 34

/-- Regex class `\d` (ASCII part). -/
def isDigitC (c : Char) : Bool := c.isDigit

/-- Regex class `[º°]`. -/
def isDegSym (c : Char) : Bool := c = 'º' || c = '°'

/-- Regex literal apostrophe. -/
def isApost (c : Char) : Bool := c = apostChar

/-- Regex class `[\d,\.]` used for the seconds token. -/
def isSecC (c : Char) : Bool := c.isDigit || c = ',' || c = '.'

/-- Regex optional quote after the seconds token. -/
def isQuoteC (c : Char) : Bool := c = quoteChar

/-- Regex class `\s` (ASCII part). -/
def isWsC (c : Char) : Bool := c.isWhitespace

/-- Regex class `[NS]` — note: case-sensitive, as in the source (no
`re.IGNORECASE` flag is passed to `re.findall`). -/
def isHemLatC (c : Char) : Bool := c = 'N' || c = 'S'

/-- Regex class `[\s,;eE]` separating the two coordinates. -/
def isSepC (c : Char) : Bool := c.isWhitespace || c = ',' || c = ';' || c = 'e' || c = 'E'

/-- Regex class `[WO]` — case-sensitive, as in the source. -/
def isHemLonC (c : Char) : Bool := c = 'W' || c = 'O'

/-- One item of the linear regex: a character class repeated between `lo` and
`hi` times (`hi = none` meaning unbounded), greedily, captured iff `cap`. -/
structure RItem where
  cls : Char → Bool
  lo : Nat
  hi : Option Nat
  cap : Bool

/-- The regex of `app.py` line 19,
`(\d{1,3})[º°](\d{1,2})'([\d,\.]+)"?\s*([NS])[\s,;eE]*(\d{1,3})[º°](\d{1,2})'([\d,\.]+)"?\s*([WO])`,
as a linear sequence of greedy class repetitions with 8 capture groups. -/
def padrao : List RItem :=
  [ ⟨isDigitC, 1, some 3, true⟩, ⟨isDegSym, 1, some 1, false⟩,
    ⟨isDigitC, 1, some 2, true⟩, ⟨isApost, 1, some 1, false⟩,
    ⟨isSecC, 1, none, true⟩, ⟨isQuoteC, 0, some 1, false⟩,
    ⟨isWsC, 0, none, false⟩, ⟨isHemLatC, 1, some 1, true⟩,
    ⟨isSepC, 0, none, false⟩,
    ⟨isDigitC, 1, some 3, true⟩, ⟨isDegSym, 1, some 1, false⟩,
    ⟨isDigitC, 1, some 2, true⟩, ⟨isApost, 1, some 1, false⟩,
    ⟨isSecC, 1, none, true⟩, ⟨isQuoteC, 0, some 1, false⟩,
    ⟨isWsC, 0, none, false⟩, ⟨isHemLonC, 1, some 1, true⟩ ]

/-- Length of the maximal prefix of `s` whose characters satisfy `cls`. -/
def runLen (cls : Char → Bool) : List Char → Nat
  | [] => 0
  | c :: t => if cls c then runLen cls t + 1 else 0

/-- Longest admissible repetition count of an item at the head of `s`:
the maximal class run, capped by the item's upper bound. -/
def maxRun (cls : Char → Bool) (hi : Option Nat) (s : List Char) : Nat :=
  match hi with
  | none => runLen cls s
  | some k => min (runLen cls s) k

/-- Greedy backtracking over the repetition count of one item: try to consume
`n` characters and continue with `cont`; on failure retry with `n - 1`, down
to the lower bound `lo`. -/
def tryLen (cont : List Char → Option (List (List Char) × List Char))
    (capQ : Bool) (s : List Char) (lo : Nat) :
    Nat → Option (List (List Char) × List Char)
  | 0 =>
    if 0 < lo then none
    else
      match cont s with
      | some (caps, r) => some ((if capQ then [[]] else []) ++ caps, r)
      | none => none
  | Nat.succ n =>
    if Nat.succ n < lo then none
    else
      match cont (s.drop (Nat.succ n)) with
      | some (caps, r) =>
          some ((if capQ then [s.take (Nat.succ n)] else []) ++ caps, r)
      | none => tryLen cont capQ s lo n

/-- Match a linear regex at the very start of `s`; on success return the list
of captured substrings and the remaining suffix.  Greedy with backtracking,
i.e. Python `re` semantics for this pattern shape. -/
def matchSeq : List RItem → List Char → Option (List (List Char) × List Char)
  | [], s => some ([], s)
  | it :: rest, s => tryLen (matchSeq rest) it.cap s it.lo (maxRun it.cls it.hi s)

/-- Left-to-right scan of `re.findall`: attempt a match at each position,
collect the captures of each (non-overlapping) match and resume after it.
The fuel argument (initialised to the string length) only bounds the
recursion; it is never exhausted because every match of `padrao` consumes at
least one character. -/
def findAllAux (pat : List RItem) : Nat → List Char → List (List (List Char))
  | 0, _ => []
  | Nat.succ f, s =>
    match s with
    | [] => []
    | _ :: t =>
      match matchSeq pat s with
      | some (caps, r) => caps :: findAllAux pat f r
      | none => findAllAux pat f t

/-- `re.findall(pat, s)`: the capture tuples of all non-overlapping matches,
in left-to-right order. -/
def findAll (pat : List RItem) (s : List Char) : List (List (List Char)) :=
  findAllAux pat s.length s

/-- Numeric value of a digit string, as read by Python `int`. -/
def natOfDigits (l : List Char) : Nat :=
  l.foldl (fun a c => a * 10 + (c.toNat - 48)) 0

/-- Python `float()` on the strings reachable here (digits and `.` after
comma normalisation): defined iff there is at most one dot and at least one
digit; the value is the exact rational reading. -/
def pyFloat (l : List Char) : Option ℚ :=
  if (l.all fun c => c.isDigit || c = '.') ∧ l.count '.' ≤ 1 ∧ (l.any fun c => c.isDigit) then
    some ((natOfDigits (l.takeWhile fun c => c ≠ '.') : ℚ) +
      (natOfDigits ((l.dropWhile fun c => c ≠ '.').tail) : ℚ) /
        (10 : ℚ) ^ ((l.dropWhile fun c => c ≠ '.').tail).length)
  else none

/-- `seg.replace(',', '.')` of `app.py` lines 25-26. -/
def normSec (l : List Char) : List Char :=
  l.map fun c => if c = ',' then '.' else c

/-- Python `str.strip()` (ASCII whitespace part). -/
def pyStripL (l : List Char) : List Char :=
  ((l.dropWhile Char.isWhitespace).reverse.dropWhile Char.isWhitespace).reverse

/-- Python `str.upper()` on one character, restricted to ASCII letters plus
`ã` (the only non-ASCII letter of the sentinel strings). -/
def pyUpperChar (c : Char) : Char := if c = 'ã' then 'Ã' else c.toUpper

/-- Python `str.upper()`. -/
def pyUpperL (l : List Char) : List Char := l.map pyUpperChar

/-- The sentinel list of `app.py` line 15. -/
def sentinelas : List (List Char) :=
  ["NÃO CONSTA".toList, "NAO CONSTA".toList, "NOT INFORMED".toList, "".toList]

/-- One extracted point (`app.py` lines 37-42). -/
structure CoordinatePair where
  latitude : ℚ
  longitude : ℚ
  latitude_dms : String
  longitude_dms : String
deriving DecidableEq

/-- The body of the `for match in matches` loop of `app.py` lines 22-42:
normalise the seconds, convert to signed decimal degrees, rebuild the DMS
strings.  A failing `float()` raises `ValueError`.  The non-8-element case is
unreachable (`padrao` has exactly 8 capture groups). -/
def convMatch (m : List (List Char)) : Except PyError CoordinatePair :=
  match m with
  | [graus_lat, min_lat, seg_lat, hem_lat, graus_lon, min_lon, seg_lon, hem_lon] =>
    let seg_lat2 := normSec seg_lat
    let seg_lon2 := normSec seg_lon
    match pyFloat seg_lat2, pyFloat seg_lon2 with
    | some qlat, some qlon =>
      let lat0 : ℚ := (natOfDigits graus_lat : ℚ) + (natOfDigits min_lat : ℚ) / 60 + qlat / 3600
      let lat : ℚ := if pyUpperL hem_lat = ['S'] then -lat0 else lat0
      let lon0 : ℚ := (natOfDigits graus_lon : ℚ) + (natOfDigits min_lon : ℚ) / 60 + qlon / 3600
      let lon : ℚ := if pyUpperL hem_lon = ['W'] then -lon0 else lon0
      Except.ok
        { latitude := lat, longitude := lon,
          latitude_dms :=
            (graus_lat ++ 'º' :: min_lat ++ apostChar :: seg_lat2 ++ quoteChar :: hem_lat).asString,
          longitude_dms :=
            (graus_lon ++ 'º' :: min_lon ++ apostChar :: seg_lon2 ++ quoteChar :: hem_lon).asString }
    | _, _ => Except.error PyError.valueError
  | _ => Except.error PyError.valueError

/-- `extrair_coordenadas` (`app.py` lines 9-43).  `none` models a `NaN` /
missing cell (`pd.isna`); a raised exception is `Except.error`. -/
def extrair_coordenadas (texto : Option String) : Except PyError (List CoordinatePair) :=
  match texto with
  | none => Except.ok []
  | some t =>
    if pyUpperL (pyStripL t.toList) ∈ sentinelas then Except.ok []
    else (findAll padrao t.toList).mapM convMatch

/-- A cell of the table: a string or a Python float (exact-rational model). -/
inductive Cell where
  | str : String → Cell
  | rat : ℚ → Cell
deriving DecidableEq

/-- `str(cell)`.  Only the `str` case is exercised by the claims; the float
case is given a fixed deterministic rendering. -/
def pyStrCell : Cell → String
  | Cell.str s => s
  | Cell.rat q => toString q

/-- A table row, as the ordered label-to-value dictionary `row.to_dict()`. -/
abbrev Row := List (String × Cell)

/-- A table: its rows in order (each row carrying its column labels). -/
abbrev DataFrame := List Row

/-- Python dict lookup `row[k]` (first binding wins; labels are unique in a
well-formed pandas row). -/
def dictLookup (row : Row) (k : String) : Option Cell :=
  (row.find? fun p => p.1 = k).map fun p => p.2

/-- Python dict assignment `d[k] = v`: overwrite in place if the key exists,
else append at the end (insertion order preserved). -/
def dictSet (row : Row) (k : String) (v : Cell) : Row :=
  if row.any fun p => p.1 = k then
    row.map fun p => if p.1 = k then (k, v) else p
  else row ++ [(k, v)]

/-- `f"P{i:02d}"` of `app.py` line 54: zero-pad to width 2. -/
def pontoLabel (i : Nat) : String :=
  "P" ++ (if i < 10 then "0" ++ toString i else toString i)

/-- Lines 53-55: copy the source row, set `PONTO`, then `dict.update` with
the four coordinate fields in their insertion order. -/
def mergePonto (row : Row) (i : Nat) (p : CoordinatePair) : Row :=
  dictSet (dictSet (dictSet (dictSet (dictSet row
    "PONTO" (Cell.str (pontoLabel i)))
    "LATITUDE" (Cell.rat p.latitude))
    "LONGITUDE" (Cell.rat p.longitude))
    "LATITUDE_DMS" (Cell.str p.latitude_dms))
    "LONGITUDE_DMS" (Cell.str p.longitude_dms)

/-- `row[coluna]` on a pandas row: a missing label raises `KeyError`. -/
def lookupCell (row : Row) (k : String) : Except PyError Cell :=
  match row.find? fun p => p.1 = k with
  | some p => Except.ok p.2
  | none => Except.error PyError.keyError

/-- The body of the outer loop of `expandir_dataframe` for one source row:
parse `str(row[coluna])` and emit one merged row per pair, enumerating from
1 (`enumerate(pontos, 1)`). -/
def expandRow (coluna : String) (row : Row) : Except PyError (List Row) := do
  let cell ← lookupCell row coluna
  let pontos ← extrair_coordenadas (some (pyStrCell cell))
  return pontos.enum.map fun ip => mergePonto row (ip.1 + 1) ip.2

/-- `expandir_dataframe` (`app.py` lines 45-57): expand every source row in
order; an exception anywhere discards all partial work. -/
def expandir_dataframe (df : DataFrame) (coluna : String) : Except PyError (List Row) := do
  let ls ← df.mapM (expandRow coluna)
  return ls.flatten

/-! ## Canonical rendering of a well-formed DMS pair -/

/-- Canonical text of one DMS coordinate: degree symbol `d` (either `º` or
`°`), a quote after the seconds, hemisphere letter `hem`. -/
def renderDMS (d : Char) (dl ml sl : List Char) (hem : Char) : List Char :=
  dl ++ d :: ml ++ apostChar :: sl ++ [quoteChar, hem]

/-- Canonical text of one full pair: latitude, one space, longitude. -/
def renderPair (d1 : Char) (dl1 ml1 sl1 : List Char) (h1 : Char)
    (d2 : Char) (dl2 ml2 sl2 : List Char) (h2 : Char) : List Char :=
  renderDMS d1 dl1 ml1 sl1 h1 ++ ' ' :: renderDMS d2 dl2 ml2 sl2 h2

/-- Well-formed degrees token: 1-3 digits. -/
@[reducible] def DegTok (l : List Char) : Prop :=
  (∀ c ∈ l, isDigitC c = true) ∧ 1 ≤ l.length ∧ l.length ≤ 3

/-- Well-formed minutes token: 1-2 digits. -/
@[reducible] def MinTok (l : List Char) : Prop :=
  (∀ c ∈ l, isDigitC c = true) ∧ 1 ≤ l.length ∧ l.length ≤ 2

/-- Well-formed seconds token: digits with at most one `,` or `.` decimal
separator and at least one digit. -/
@[reducible] def SecTok (l : List Char) : Prop :=
  (∀ c ∈ l, isSecC c = true) ∧ 1 ≤ l.length ∧
    l.count ',' + l.count '.' ≤ 1 ∧ ∃ c ∈ l, isDigitC c = true

/-- The exact numeric value Python `float()` assigns to a normalised seconds
token. -/
def secVal (l : List Char) : ℚ :=
  (natOfDigits ((normSec l).takeWhile fun c => c ≠ '.') : ℚ) +
    (natOfDigits (((normSec l).dropWhile fun c => c ≠ '.').tail) : ℚ) /
      (10 : ℚ) ^ (((normSec l).dropWhile fun c => c ≠ '.').tail).length

/-- Shape invariant of a successful match: the input splits into per-item
blocks satisfying each item's class and repetition bounds; the captures are
the blocks of the capture-flagged items, in order. -/
inductive CapsOf : List RItem → List Char → List (List Char) → List Char → Prop where
  | nil (s : List Char) : CapsOf [] s [] s
  | cons (it : RItem) (rest : List RItem) (xs ys : List Char)
      (caps : List (List Char)) (r : List Char)
      (hall : ∀ c ∈ xs, it.cls c = true)
      (hlo : it.lo ≤ xs.length)
      (hhi : ∀ k, it.hi = some k → xs.length ≤ k)
      (htail : CapsOf rest ys caps r) :
      CapsOf (it :: rest) (xs ++ ys) ((if it.cap then [xs] else []) ++ caps) r

/-- Per-item shape of a capture tuple, read off the item list. -/
def capShapes : List RItem → List (List Char) → Prop
  | [], caps => caps = []
  | ⟨cls, lo, hi, true⟩ :: rest, caps =>
      ∃ xs caps2, caps = xs :: caps2 ∧ (∀ c ∈ xs, cls c = true) ∧
        lo ≤ xs.length ∧ (∀ k, hi = some k → xs.length ≤ k) ∧ capShapes rest caps2
  | ⟨_, _, _, false⟩ :: rest, caps => capShapes rest caps

/-- The coordinate pairs a given source row contributes (empty on any error,
which cannot happen when the whole expansion succeeded). -/
def pairsOfRow (coluna : String) (row : Row) : List CoordinatePair :=
  match lookupCell row coluna with
  | Except.error _ => []
  | Except.ok cell =>
    match extrair_coordenadas (some (pyStrCell cell)) with
    | Except.error _ => []
    | Except.ok pontos => pontos

/-- The expanded rows a given source row contributes. -/
def expandRowPure (coluna : String) (row : Row) : List Row :=
  (pairsOfRow coluna row).enum.map fun ip => mergePonto row (ip.1 + 1) ip.2

set_option maxRecDepth 8000

/-! ## Matcher lemmas: evaluation of a greedy match at a class boundary -/

/-- A maximal class run prepended to a non-member head: the run length is
exactly the prefix length. -/
lemma runLen_append (cls : Char → Bool) (xs ys : List Char)
    (hall : ∀ c ∈ xs, cls c = true)
    (hstop : ∀ c, ys.head? = some c → cls c = false) :
    runLen cls (xs ++ ys) = xs.length := by
  induction xs with
  | nil =>
    cases ys with
    | nil => rfl
    | cons b t => simp [runLen, hstop b rfl]
  | cons a t ih =>
    have ha := hall a (by simp)
    have ih' := ih fun c hc => hall c (by simp [hc])
    show (if cls a then runLen cls (t ++ ys) + 1 else 0) = t.length + 1
    rw [if_pos ha, ih']

lemma maxRun_eq (it : RItem) (xs ys : List Char)
    (hall : ∀ c ∈ xs, it.cls c = true)
    (hhi : ∀ k, it.hi = some k → xs.length ≤ k)
    (hstop : ∀ c, ys.head? = some c → it.cls c = false) :
    maxRun it.cls it.hi (xs ++ ys) = xs.length := by
  unfold maxRun
  cases h : it.hi with
  | none => exact runLen_append it.cls xs ys hall hstop
  | some k =>
    rw [runLen_append it.cls xs ys hall hstop]
    exact Nat.min_eq_left (hhi k h)

/-- Greedy repetition succeeds immediately when the continuation succeeds at
the attempted (maximal) length. -/
lemma tryLen_eq_of_cont (cont : List Char → Option (List (List Char) × List Char))
    (capQ : Bool) (s : List Char) (lo n : Nat)
    (caps : List (List Char)) (r : List Char)
    (hlo : lo ≤ n) (hc : cont (s.drop n) = some (caps, r)) :
    tryLen cont capQ s lo n = some ((if capQ then [s.take n] else []) ++ caps, r) := by
  cases n with
  | zero =>
    have h0 : ¬ 0 < lo := by omega
    simp only [tryLen, if_neg h0, List.drop_zero] at *
    rw [hc]
    simp
  | succ m =>
    have h0 : ¬ Nat.succ m < lo := by omega
    simp only [tryLen, if_neg h0]
    rw [hc]

/-- One step of the matcher on a string that starts with a block `xs` of
class characters followed by a non-class character: the greedy item consumes
exactly `xs` and the rest of the pattern continues on `ys`. -/
lemma matchSeq_step (it : RItem) (rest : List RItem) (xs ys : List Char)
    (caps : List (List Char)) (r : List Char)
    (hall : ∀ c ∈ xs, it.cls c = true)
    (hlo : it.lo ≤ xs.length)
    (hhi : ∀ k, it.hi = some k → xs.length ≤ k)
    (hstop : ∀ c, ys.head? = some c → it.cls c = false)
    (hrest : matchSeq rest ys = some (caps, r)) :
    matchSeq (it :: rest) (xs ++ ys) =
      some ((if it.cap then [xs] else []) ++ caps, r) := by
  have hmax := maxRun_eq it xs ys hall hhi hstop
  have hdrop : (xs ++ ys).drop xs.length = ys := List.drop_left xs ys
  have htake : (xs ++ ys).take xs.length = xs := List.take_left xs ys
  simp only [matchSeq, hmax]
  rw [tryLen_eq_of_cont _ _ _ _ _ _ _ hlo (by rw [hdrop]; exact hrest), htake]

lemma findAllAux_nil (pat : List RItem) (f : Nat) : findAllAux pat f [] = [] := by
  cases f <;> rfl

/-! ## Character-class facts -/

lemma ne_of_class (P : Char → Bool) (c d : Char) (hc : P c = true) (hd : P d = false) :
    ¬ (c = d) := fun e => by subst e; rw [hc] at hd; exact Bool.noConfusion hd

lemma isSepC_of_digit (c : Char) (h : isDigitC c = true) : isSepC c = false := by
  have h1 := ne_of_class isDigitC c ' ' h (by decide)
  have h2 := ne_of_class isDigitC c '\t' h (by decide)
  have h3 := ne_of_class isDigitC c '\r' h (by decide)
  have h4 := ne_of_class isDigitC c '\n' h (by decide)
  have h5 := ne_of_class isDigitC c ',' h (by decide)
  have h6 := ne_of_class isDigitC c ';' h (by decide)
  have h7 := ne_of_class isDigitC c 'e' h (by decide)
  have h8 := ne_of_class isDigitC c 'E' h (by decide)
  simp [isSepC, Char.isWhitespace, h1, h2, h3, h4, h5, h6, h7, h8]

lemma isDegSym_of_digit (c : Char) (h : isDigitC c = true) : isDegSym c = false := by
  have h1 := ne_of_class isDigitC c 'º' h (by decide)
  have h2 := ne_of_class isDigitC c '°' h (by decide)
  simp [isDegSym, h1, h2]

lemma isApost_of_sec (c : Char) (h : isSecC c = true) : isApost c = false := by
  have h1 := ne_of_class isSecC c apostChar h (by decide)
  simp [isApost, h1]

lemma isDigitC_of_degSym (c : Char) (h : isDegSym c = true) : isDigitC c = false := by
  rcases (by simpa [isDegSym] using h : c = 'º' ∨ c = '°') with rfl | rfl <;> decide

lemma not_ws_of_digit (c : Char) (h : isDigitC c = true) : c.isWhitespace = false := by
  have h1 := ne_of_class isDigitC c ' ' h (by decide)
  have h2 := ne_of_class isDigitC c '\t' h (by decide)
  have h3 := ne_of_class isDigitC c '\r' h (by decide)
  have h4 := ne_of_class isDigitC c '\n' h (by decide)
  simp [Char.isWhitespace, h1, h2, h3, h4]

lemma hemLat_cases (c : Char) (h : isHemLatC c = true) : c = 'N' ∨ c = 'S' := by
  simpa [isHemLatC] using h

lemma hemLon_cases (c : Char) (h : isHemLonC c = true) : c = 'W' ∨ c = 'O' := by
  simpa [isHemLonC] using h

/-- The head of a nonempty all-`cls2` block rejects any class disjoint from
`cls2`. -/
lemma head_stop (cls cls2 : Char → Bool) (l z : List Char) (hne : 1 ≤ l.length)
    (hall : ∀ c ∈ l, cls2 c = true) (himp : ∀ c, cls2 c = true → cls c = false) :
    ∀ c, (l ++ z).head? = some c → cls c = false := by
  cases l with
  | nil => simp at hne
  | cons a t =>
    intro c hc
    simp only [List.cons_append, List.head?_cons, Option.some.injEq] at hc
    subst hc
    exact himp a (hall a (by simp))

lemma count_dot_normSec (l : List Char) :
    (normSec l).count '.' = l.count ',' + l.count '.' := by
  induction l with
  | nil => rfl
  | cons a t ih =>
    show ((if a = ',' then '.' else a) :: normSec t).count '.' = _
    by_cases ha : a = ','
    · subst ha
      simp [List.count_cons, ih]
      omega
    · by_cases ha2 : a = '.'
      · subst ha2
        simp [List.count_cons, ih]
        omega
      · simp [List.count_cons, ih, ha, ha2]

lemma secVal_nonneg (l : List Char) : 0 ≤ secVal l := by
  unfold secVal
  positivity

lemma mem_dropWhile_of_neg (P : Char → Bool) (a : Char) (l : List Char)
    (ha : a ∈ l) (hP : P a = false) : a ∈ l.dropWhile P := by
  induction l with
  | nil => cases ha
  | cons c t ih =>
    by_cases hc : P c = true
    · rw [List.dropWhile_cons_of_pos hc]
      rcases List.mem_cons.mp ha with rfl | h
      · rw [hP] at hc; exact Bool.noConfusion hc
      · exact ih h
    · rw [List.dropWhile_cons_of_neg (by simpa using hc)]
      exact ha

/-- A non-whitespace character of the input survives Python `strip()`. -/
lemma mem_pyStripL (a : Char) (l : List Char) (ha : a ∈ l)
    (hP : a.isWhitespace = false) : a ∈ pyStripL l := by
  unfold pyStripL
  rw [List.mem_reverse]
  refine mem_dropWhile_of_neg _ _ _ ?_ hP
  rw [List.mem_reverse]
  exact mem_dropWhile_of_neg _ _ _ ha hP

/-- A text containing an apostrophe is not a sentinel after strip/upper. -/
lemma not_sentinel_of_apost (l : List Char) (hmem : apostChar ∈ l) :
    pyUpperL (pyStripL l) ∉ sentinelas := by
  intro hin
  have h1 : apostChar ∈ pyUpperL (pyStripL l) := by
    have h2 := mem_pyStripL apostChar l hmem (by decide)
    have h3 : pyUpperChar apostChar = apostChar := by decide
    exact h3 ▸ List.mem_map_of_mem _ h2
  simp only [sentinelas, List.mem_cons, List.not_mem_nil, or_false] at hin
  rcases hin with h | h | h | h <;> rw [h] at h1 <;> revert h1 <;> decide

lemma mapM_one (f : List (List Char) → Except PyError CoordinatePair)
    (m : List (List Char)) (p : CoordinatePair) (h : f m = Except.ok p) :
    List.mapM f [m] = Except.ok [p] := by
  show List.mapM.loop f [m] [] = Except.ok [p]
  show (f m >>= fun b => List.mapM.loop f [] [b]) = Except.ok [p]
  rw [h]
  rfl

/-- A well-formed seconds token converts successfully (to its exact value)
after comma normalisation. -/
lemma pyFloat_normSec (l : List Char) (h : SecTok l) :
    pyFloat (normSec l) = some (secVal l) := by
  obtain ⟨hall, hlen, hcnt, c, hc, hcd⟩ := h
  unfold pyFloat
  rw [if_pos]
  · rfl
  refine ⟨?_, ?_, ?_⟩
  · rw [List.all_eq_true]
    intro x hx
    obtain ⟨y, hy, rfl⟩ := List.mem_map.mp hx
    by_cases hy2 : y = ','
    · simp [hy2]
    · have := hall y hy
      simp only [isSecC] at this
      simp only [if_neg hy2]
      rcases Bool.or_eq_true _ _ |>.mp this with h1 | h1
      · rcases Bool.or_eq_true _ _ |>.mp h1 with h2 | h2
        · simp [h2]
        · simp at h2
          exact absurd h2 hy2
      · simp at h1
        simp [h1]
  · rw [count_dot_normSec]
    exact hcnt
  · rw [List.any_eq_true]
    have hne : c ≠ ',' := ne_of_class isDigitC c ',' hcd (by decide)
    refine ⟨c, ?_, hcd⟩
    have : (if c = ',' then '.' else c) = c := if_neg hne
    exact this ▸ List.mem_map_of_mem _ hc

/-- Evaluation of the loop body on a capture tuple with well-formed seconds
tokens and single, exactly-matched hemisphere letters. -/
lemma convMatch_eval (dl1 ml1 sl1 : List Char) (h1 : Char)
    (dl2 ml2 sl2 : List Char) (h2 : Char)
    (hsl1 : SecTok sl1) (hsl2 : SecTok sl2)
    (hh1 : isHemLatC h1 = true) (hh2 : isHemLonC h2 = true) :
    convMatch [dl1, ml1, sl1, [h1], dl2, ml2, sl2, [h2]] =
      Except.ok
        { latitude := (if h1 = 'S' then (-1 : ℚ) else 1) *
            ((natOfDigits dl1 : ℚ) + (natOfDigits ml1 : ℚ) / 60 + secVal sl1 / 3600),
          longitude := (if h2 = 'W' then (-1 : ℚ) else 1) *
            ((natOfDigits dl2 : ℚ) + (natOfDigits ml2 : ℚ) / 60 + secVal sl2 / 3600),
          latitude_dms :=
            (dl1 ++ 'º' :: ml1 ++ apostChar :: normSec sl1 ++ [quoteChar, h1]).asString,
          longitude_dms :=
            (dl2 ++ 'º' :: ml2 ++ apostChar :: normSec sl2 ++ [quoteChar, h2]).asString } := by
  simp only [convMatch]
  rw [pyFloat_normSec sl1 hsl1, pyFloat_normSec sl2 hsl2]
  rcases hemLat_cases h1 hh1 with rfl | rfl <;> rcases hemLon_cases h2 hh2 with rfl | rfl <;>
    change Except.ok _ = Except.ok _
  · rw [if_neg (by decide : ¬ pyUpperL ['N'] = ['S']),
      if_pos (by decide : pyUpperL ['W'] = ['W']),
      if_neg (by decide : ¬ ('N' = 'S')), if_pos (rfl : ('W' = 'W'))]
    simp only [one_mul, neg_one_mul]
  · rw [if_neg (by decide : ¬ pyUpperL ['N'] = ['S']),
      if_neg (by decide : ¬ pyUpperL ['O'] = ['W']),
      if_neg (by decide : ¬ ('N' = 'S')), if_neg (by decide : ¬ ('O' = 'W'))]
    simp only [one_mul]
  · rw [if_pos (by decide : pyUpperL ['S'] = ['S']),
      if_pos (by decide : pyUpperL ['W'] = ['W']),
      if_pos (rfl : ('S' = 'S')), if_pos (rfl : ('W' = 'W'))]
    simp only [neg_one_mul]
  · rw [if_pos (by decide : pyUpperL ['S'] = ['S']),
      if_neg (by decide : ¬ pyUpperL ['O'] = ['W']),
      if_pos (rfl : ('S' = 'S')), if_neg (by decide : ¬ ('O' = 'W'))]
    simp only [one_mul, neg_one_mul]

/-- A complete match of the whole input is the single result of the scan. -/
lemma findAll_of_whole (pat : List RItem) (s : List Char) (caps : List (List Char))
    (hs : s ≠ []) (h : matchSeq pat s = some (caps, [])) :
    findAll pat s = [caps] := by
  cases s with
  | nil => exact absurd rfl hs
  | cons a t =>
    show findAllAux pat (a :: t).length (a :: t) = [caps]
    simp only [List.length_cons, findAllAux, h, findAllAux_nil]

lemma hhi_some (n : Nat) (xs : List Char) (hx : xs.length ≤ n) :
    ∀ k, (some n : Option Nat) = some k → xs.length ≤ k := by
  intro k hk
  injection hk with hk
  omega

lemma hhi_none (xs : List Char) :
    ∀ k, (none : Option Nat) = some k → xs.length ≤ k := by
  intro k hk
  exact absurd hk (by simp)

lemma hall_single (P : Char → Bool) (c : Char) (h : P c = true) :
    ∀ x ∈ [c], P x = true := by
  intro x hx
  simp at hx
  subst hx
  exact h

lemma hall_nil (P : Char → Bool) : ∀ x ∈ ([] : List Char), P x = true := by
  intro x hx
  exact absurd hx (List.not_mem_nil x)

lemma hstop_nil (P : Char → Bool) :
    ∀ c, ([] : List Char).head? = some c → P c = false := by
  intro c hc
  exact absurd hc (by simp)

lemma hstop_cons (P : Char → Bool) (a : Char) (t : List Char) (h : P a = false) :
    ∀ c, (a :: t).head? = some c → P c = false := by
  intro c hc
  simp at hc
  subst hc
  exact h

/-- Full evaluation of the parser on the canonical rendering of one
well-formed pair: exactly one pair is extracted, carrying the algebraic
decimal conversion and the reconstructed (normalised) DMS strings. -/
lemma extrair_render (d1 : Char) (dl1 ml1 sl1 : List Char) (h1 : Char)
    (d2 : Char) (dl2 ml2 sl2 : List Char) (h2 : Char)
    (hd1 : isDegSym d1 = true) (hd2 : isDegSym d2 = true)
    (hdl1 : DegTok dl1) (hml1 : MinTok ml1) (hsl1 : SecTok sl1)
    (hdl2 : DegTok dl2) (hml2 : MinTok ml2) (hsl2 : SecTok sl2)
    (hh1 : isHemLatC h1 = true) (hh2 : isHemLonC h2 = true) :
    extrair_coordenadas (some (renderPair d1 dl1 ml1 sl1 h1 d2 dl2 ml2 sl2 h2).asString) =
      Except.ok
        [{ latitude := (if h1 = 'S' then (-1 : ℚ) else 1) *
             ((natOfDigits dl1 : ℚ) + (natOfDigits ml1 : ℚ) / 60 + secVal sl1 / 3600),
           longitude := (if h2 = 'W' then (-1 : ℚ) else 1) *
             ((natOfDigits dl2 : ℚ) + (natOfDigits ml2 : ℚ) / 60 + secVal sl2 / 3600),
           latitude_dms :=
             (dl1 ++ 'º' :: ml1 ++ apostChar :: normSec sl1 ++ [quoteChar, h1]).asString,
           longitude_dms :=
             (dl2 ++ 'º' :: ml2 ++ apostChar :: normSec sl2 ++ [quoteChar, h2]).asString }] := by
  obtain ⟨hdl1a, hdl1b, hdl1c⟩ := hdl1
  obtain ⟨hml1a, hml1b, hml1c⟩ := hml1
  obtain ⟨hsl1a, hsl1b, -, -⟩ := id hsl1
  obtain ⟨hdl2a, hdl2b, hdl2c⟩ := hdl2
  obtain ⟨hml2a, hml2b, hml2c⟩ := hml2
  obtain ⟨hsl2a, hsl2b, -, -⟩ := id hsl2
  have hws1 : isWsC h1 = false := by rcases hemLat_cases h1 hh1 with rfl | rfl <;> decide
  have hq1 : isQuoteC h1 = false := by rcases hemLat_cases h1 hh1 with rfl | rfl <;> decide
  have hws2 : isWsC h2 = false := by rcases hemLon_cases h2 hh2 with rfl | rfl <;> decide
  have hq2 : isQuoteC h2 = false := by rcases hemLon_cases h2 hh2 with rfl | rfl <;> decide
  have t17 : matchSeq [⟨isHemLonC, 1, some 1, true⟩] [h2] = some ([[h2]], []) :=
    matchSeq_step ⟨isHemLonC, 1, some 1, true⟩ [] [h2] [] [] []
      (hall_single _ _ hh2) (by simp) (hhi_some 1 [h2] (by simp)) (hstop_nil _) rfl
  have t16 : matchSeq [⟨isWsC, 0, none, false⟩, ⟨isHemLonC, 1, some 1, true⟩]
      [h2] = some ([[h2]], []) :=
    matchSeq_step ⟨isWsC, 0, none, false⟩ [⟨isHemLonC, 1, some 1, true⟩] [] [h2] [[h2]] []
      (hall_nil _) (Nat.zero_le _) (hhi_none []) (hstop_cons _ _ _ hws2) t17
  have t15 : matchSeq
      [⟨isQuoteC, 0, some 1, false⟩, ⟨isWsC, 0, none, false⟩, ⟨isHemLonC, 1, some 1, true⟩]
      (quoteChar :: [h2]) = some ([[h2]], []) :=
    matchSeq_step ⟨isQuoteC, 0, some 1, false⟩ _ [quoteChar] [h2] [[h2]] []
      (hall_single _ _ (by decide)) (Nat.zero_le _) (hhi_some 1 [quoteChar] (by simp))
      (hstop_cons _ _ _ hq2) t16
  have t14 : matchSeq
      [⟨isSecC, 1, none, true⟩, ⟨isQuoteC, 0, some 1, false⟩, ⟨isWsC, 0, none, false⟩,
        ⟨isHemLonC, 1, some 1, true⟩]
      (sl2 ++ quoteChar :: [h2]) = some ([sl2, [h2]], []) :=
    matchSeq_step ⟨isSecC, 1, none, true⟩ _ sl2 (quoteChar :: [h2]) [[h2]] []
      hsl2a hsl2b (hhi_none sl2) (hstop_cons _ _ _ (by decide)) t15
  have t13 : matchSeq
      [⟨isApost, 1, some 1, false⟩, ⟨isSecC, 1, none, true⟩, ⟨isQuoteC, 0, some 1, false⟩,
        ⟨isWsC, 0, none, false⟩, ⟨isHemLonC, 1, some 1, true⟩]
      (apostChar :: (sl2 ++ quoteChar :: [h2])) = some ([sl2, [h2]], []) :=
    matchSeq_step ⟨isApost, 1, some 1, false⟩ _ [apostChar] (sl2 ++ quoteChar :: [h2])
      [sl2, [h2]] []
      (hall_single _ _ (by decide)) (by simp) (hhi_some 1 [apostChar] (by simp))
      (head_stop isApost isSecC sl2 _ hsl2b hsl2a isApost_of_sec) t14
  have t12 : matchSeq
      [⟨isDigitC, 1, some 2, true⟩, ⟨isApost, 1, some 1, false⟩, ⟨isSecC, 1, none, true⟩,
        ⟨isQuoteC, 0, some 1, false⟩, ⟨isWsC, 0, none, false⟩, ⟨isHemLonC, 1, some 1, true⟩]
      (ml2 ++ apostChar :: (sl2 ++ quoteChar :: [h2])) = some ([ml2, sl2, [h2]], []) :=
    matchSeq_step ⟨isDigitC, 1, some 2, true⟩ _ ml2 (apostChar :: (sl2 ++ quoteChar :: [h2]))
      [sl2, [h2]] []
      hml2a hml2b (hhi_some 2 ml2 hml2c) (hstop_cons _ _ _ (by decide)) t13
  have t11 : matchSeq
      [⟨isDegSym, 1, some 1, false⟩, ⟨isDigitC, 1, some 2, true⟩, ⟨isApost, 1, some 1, false⟩,
        ⟨isSecC, 1, none, true⟩, ⟨isQuoteC, 0, some 1, false⟩, ⟨isWsC, 0, none, false⟩,
        ⟨isHemLonC, 1, some 1, true⟩]
      (d2 :: (ml2 ++ apostChar :: (sl2 ++ quoteChar :: [h2]))) = some ([ml2, sl2, [h2]], []) :=
    matchSeq_step ⟨isDegSym, 1, some 1, false⟩ _ [d2]
      (ml2 ++ apostChar :: (sl2 ++ quoteChar :: [h2])) [ml2, sl2, [h2]] []
      (hall_single _ _ hd2) (by simp) (hhi_some 1 [d2] (by simp))
      (head_stop isDegSym isDigitC ml2 _ hml2b hml2a isDegSym_of_digit) t12
  have t10 : matchSeq
      [⟨isDigitC, 1, some 3, true⟩, ⟨isDegSym, 1, some 1, false⟩, ⟨isDigitC, 1, some 2, true⟩,
        ⟨isApost, 1, some 1, false⟩, ⟨isSecC, 1, none, true⟩, ⟨isQuoteC, 0, some 1, false⟩,
        ⟨isWsC, 0, none, false⟩, ⟨isHemLonC, 1, some 1, true⟩]
      (dl2 ++ d2 :: (ml2 ++ apostChar :: (sl2 ++ quoteChar :: [h2]))) =
        some ([dl2, ml2, sl2, [h2]], []) :=
    matchSeq_step ⟨isDigitC, 1, some 3, true⟩ _ dl2
      (d2 :: (ml2 ++ apostChar :: (sl2 ++ quoteChar :: [h2]))) [ml2, sl2, [h2]] []
      hdl2a hdl2b (hhi_some 3 dl2 hdl2c)
      (hstop_cons _ _ _ (isDigitC_of_degSym d2 hd2)) t11
  have t9 : matchSeq
      [⟨isSepC, 0, none, false⟩, ⟨isDigitC, 1, some 3, true⟩, ⟨isDegSym, 1, some 1, false⟩,
        ⟨isDigitC, 1, some 2, true⟩, ⟨isApost, 1, some 1, false⟩, ⟨isSecC, 1, none, true⟩,
        ⟨isQuoteC, 0, some 1, false⟩, ⟨isWsC, 0, none, false⟩, ⟨isHemLonC, 1, some 1, true⟩]
      (' ' :: (dl2 ++ d2 :: (ml2 ++ apostChar :: (sl2 ++ quoteChar :: [h2])))) =
        some ([dl2, ml2, sl2, [h2]], []) :=
    matchSeq_step ⟨isSepC, 0, none, false⟩ _ [' ']
      (dl2 ++ d2 :: (ml2 ++ apostChar :: (sl2 ++ quoteChar :: [h2]))) [dl2, ml2, sl2, [h2]] []
      (hall_single _ _ (by decide)) (Nat.zero_le _) (hhi_none [' '])
      (head_stop isSepC isDigitC dl2 _ hdl2b hdl2a isSepC_of_digit) t10
  have t8 : matchSeq
      [⟨isHemLatC, 1, some 1, true⟩, ⟨isSepC, 0, none, false⟩, ⟨isDigitC, 1, some 3, true⟩,
        ⟨isDegSym, 1, some 1, false⟩, ⟨isDigitC, 1, some 2, true⟩, ⟨isApost, 1, some 1, false⟩,
        ⟨isSecC, 1, none, true⟩, ⟨isQuoteC, 0, some 1, false⟩, ⟨isWsC, 0, none, false⟩,
        ⟨isHemLonC, 1, some 1, true⟩]
      (h1 :: ' ' :: (dl2 ++ d2 :: (ml2 ++ apostChar :: (sl2 ++ quoteChar :: [h2])))) =
        some ([[h1], dl2, ml2, sl2, [h2]], []) :=
    matchSeq_step ⟨isHemLatC, 1, some 1, true⟩ _ [h1]
      (' ' :: (dl2 ++ d2 :: (ml2 ++ apostChar :: (sl2 ++ quoteChar :: [h2]))))
      [dl2, ml2, sl2, [h2]] []
      (hall_single _ _ hh1) (by simp) (hhi_some 1 [h1] (by simp))
      (hstop_cons _ _ _ (by decide)) t9
  have t7 : matchSeq
      [⟨isWsC, 0, none, false⟩, ⟨isHemLatC, 1, some 1, true⟩, ⟨isSepC, 0, none, false⟩,
        ⟨isDigitC, 1, some 3, true⟩, ⟨isDegSym, 1, some 1, false⟩, ⟨isDigitC, 1, some 2, true⟩,
        ⟨isApost, 1, some 1, false⟩, ⟨isSecC, 1, none, true⟩, ⟨isQuoteC, 0, some 1, false⟩,
        ⟨isWsC, 0, none, false⟩, ⟨isHemLonC, 1, some 1, true⟩]
      (h1 :: ' ' :: (dl2 ++ d2 :: (ml2 ++ apostChar :: (sl2 ++ quoteChar :: [h2])))) =
        some ([[h1], dl2, ml2, sl2, [h2]], []) :=
    matchSeq_step ⟨isWsC, 0, none, false⟩ _ []
      (h1 :: ' ' :: (dl2 ++ d2 :: (ml2 ++ apostChar :: (sl2 ++ quoteChar :: [h2]))))
      [[h1], dl2, ml2, sl2, [h2]] []
      (hall_nil _) (Nat.zero_le _) (hhi_none []) (hstop_cons _ _ _ hws1) t8
  have t6 : matchSeq
      [⟨isQuoteC, 0, some 1, false⟩, ⟨isWsC, 0, none, false⟩, ⟨isHemLatC, 1, some 1, true⟩,
        ⟨isSepC, 0, none, false⟩, ⟨isDigitC, 1, some 3, true⟩, ⟨isDegSym, 1, some 1, false⟩,
        ⟨isDigitC, 1, some 2, true⟩, ⟨isApost, 1, some 1, false⟩, ⟨isSecC, 1, none, true⟩,
        ⟨isQuoteC, 0, some 1, false⟩, ⟨isWsC, 0, none, false⟩, ⟨isHemLonC, 1, some 1, true⟩]
      (quoteChar :: h1 :: ' ' :: (dl2 ++ d2 :: (ml2 ++ apostChar :: (sl2 ++ quoteChar :: [h2])))) =
        some ([[h1], dl2, ml2, sl2, [h2]], []) :=
    matchSeq_step ⟨isQuoteC, 0, some 1, false⟩ _ [quoteChar]
      (h1 :: ' ' :: (dl2 ++ d2 :: (ml2 ++ apostChar :: (sl2 ++ quoteChar :: [h2]))))
      [[h1], dl2, ml2, sl2, [h2]] []
      (hall_single _ _ (by decide)) (Nat.zero_le _) (hhi_some 1 [quoteChar] (by simp))
      (hstop_cons _ _ _ hq1) t7
  have t5 : matchSeq
      [⟨isSecC, 1, none, true⟩, ⟨isQuoteC, 0, some 1, false⟩, ⟨isWsC, 0, none, false⟩,
        ⟨isHemLatC, 1, some 1, true⟩, ⟨isSepC, 0, none, false⟩, ⟨isDigitC, 1, some 3, true⟩,
        ⟨isDegSym, 1, some 1, false⟩, ⟨isDigitC, 1, some 2, true⟩, ⟨isApost, 1, some 1, false⟩,
        ⟨isSecC, 1, none, true⟩, ⟨isQuoteC, 0, some 1, false⟩, ⟨isWsC, 0, none, false⟩,
        ⟨isHemLonC, 1, some 1, true⟩]
      (sl1 ++ quoteChar :: h1 :: ' ' ::
        (dl2 ++ d2 :: (ml2 ++ apostChar :: (sl2 ++ quoteChar :: [h2])))) =
        some ([sl1, [h1], dl2, ml2, sl2, [h2]], []) :=
    matchSeq_step ⟨isSecC, 1, none, true⟩ _ sl1
      (quoteChar :: h1 :: ' ' :: (dl2 ++ d2 :: (ml2 ++ apostChar :: (sl2 ++ quoteChar :: [h2]))))
      [[h1], dl2, ml2, sl2, [h2]] []
      hsl1a hsl1b (hhi_none sl1) (hstop_cons _ _ _ (by decide)) t6
  have t4 : matchSeq
      [⟨isApost, 1, some 1, false⟩, ⟨isSecC, 1, none, true⟩, ⟨isQuoteC, 0, some 1, false⟩,
        ⟨isWsC, 0, none, false⟩, ⟨isHemLatC, 1, some 1, true⟩, ⟨isSepC, 0, none, false⟩,
        ⟨isDigitC, 1, some 3, true⟩, ⟨isDegSym, 1, some 1, false⟩, ⟨isDigitC, 1, some 2, true⟩,
        ⟨isApost, 1, some 1, false⟩, ⟨isSecC, 1, none, true⟩, ⟨isQuoteC, 0, some 1, false⟩,
        ⟨isWsC, 0, none, false⟩, ⟨isHemLonC, 1, some 1, true⟩]
      (apostChar :: (sl1 ++ quoteChar :: h1 :: ' ' ::
        (dl2 ++ d2 :: (ml2 ++ apostChar :: (sl2 ++ quoteChar :: [h2]))))) =
        some ([sl1, [h1], dl2, ml2, sl2, [h2]], []) :=
    matchSeq_step ⟨isApost, 1, some 1, false⟩ _ [apostChar]
      (sl1 ++ quoteChar :: h1 :: ' ' ::
        (dl2 ++ d2 :: (ml2 ++ apostChar :: (sl2 ++ quoteChar :: [h2]))))
      [sl1, [h1], dl2, ml2, sl2, [h2]] []
      (hall_single _ _ (by decide)) (by simp) (hhi_some 1 [apostChar] (by simp))
      (head_stop isApost isSecC sl1 _ hsl1b hsl1a isApost_of_sec) t5
  have t3 : matchSeq
      [⟨isDigitC, 1, some 2, true⟩, ⟨isApost, 1, some 1, false⟩, ⟨isSecC, 1, none, true⟩,
        ⟨isQuoteC, 0, some 1, false⟩, ⟨isWsC, 0, none, false⟩, ⟨isHemLatC, 1, some 1, true⟩,
        ⟨isSepC, 0, none, false⟩, ⟨isDigitC, 1, some 3, true⟩, ⟨isDegSym, 1, some 1, false⟩,
        ⟨isDigitC, 1, some 2, true⟩, ⟨isApost, 1, some 1, false⟩, ⟨isSecC, 1, none, true⟩,
        ⟨isQuoteC, 0, some 1, false⟩, ⟨isWsC, 0, none, false⟩, ⟨isHemLonC, 1, some 1, true⟩]
      (ml1 ++ apostChar :: (sl1 ++ quoteChar :: h1 :: ' ' ::
        (dl2 ++ d2 :: (ml2 ++ apostChar :: (sl2 ++ quoteChar :: [h2]))))) =
        some ([ml1, sl1, [h1], dl2, ml2, sl2, [h2]], []) :=
    matchSeq_step ⟨isDigitC, 1, some 2, true⟩ _ ml1
      (apostChar :: (sl1 ++ quoteChar :: h1 :: ' ' ::
        (dl2 ++ d2 :: (ml2 ++ apostChar :: (sl2 ++ quoteChar :: [h2])))))
      [sl1, [h1], dl2, ml2, sl2, [h2]] []
      hml1a hml1b (hhi_some 2 ml1 hml1c) (hstop_cons _ _ _ (by decide)) t4
  have t2 : matchSeq
      [⟨isDegSym, 1, some 1, false⟩, ⟨isDigitC, 1, some 2, true⟩, ⟨isApost, 1, some 1, false⟩,
        ⟨isSecC, 1, none, true⟩, ⟨isQuoteC, 0, some 1, false⟩, ⟨isWsC, 0, none, false⟩,
        ⟨isHemLatC, 1, some 1, true⟩, ⟨isSepC, 0, none, false⟩, ⟨isDigitC, 1, some 3, true⟩,
        ⟨isDegSym, 1, some 1, false⟩, ⟨isDigitC, 1, some 2, true⟩, ⟨isApost, 1, some 1, false⟩,
        ⟨isSecC, 1, none, true⟩, ⟨isQuoteC, 0, some 1, false⟩, ⟨isWsC, 0, none, false⟩,
        ⟨isHemLonC, 1, some 1, true⟩]
      (d1 :: (ml1 ++ apostChar :: (sl1 ++ quoteChar :: h1 :: ' ' ::
        (dl2 ++ d2 :: (ml2 ++ apostChar :: (sl2 ++ quoteChar :: [h2])))))) =
        some ([ml1, sl1, [h1], dl2, ml2, sl2, [h2]], []) :=
    matchSeq_step ⟨isDegSym, 1, some 1, false⟩ _ [d1]
      (ml1 ++ apostChar :: (sl1 ++ quoteChar :: h1 :: ' ' ::
        (dl2 ++ d2 :: (ml2 ++ apostChar :: (sl2 ++ quoteChar :: [h2])))))
      [ml1, sl1, [h1], dl2, ml2, sl2, [h2]] []
      (hall_single _ _ hd1) (by simp) (hhi_some 1 [d1] (by simp))
      (head_stop isDegSym isDigitC ml1 _ hml1b hml1a isDegSym_of_digit) t3
  have t1 : matchSeq padrao
      (dl1 ++ d1 :: (ml1 ++ apostChar :: (sl1 ++ quoteChar :: h1 :: ' ' ::
        (dl2 ++ d2 :: (ml2 ++ apostChar :: (sl2 ++ quoteChar :: [h2])))))) =
        some ([dl1, ml1, sl1, [h1], dl2, ml2, sl2, [h2]], []) :=
    matchSeq_step ⟨isDigitC, 1, some 3, true⟩ _ dl1
      (d1 :: (ml1 ++ apostChar :: (sl1 ++ quoteChar :: h1 :: ' ' ::
        (dl2 ++ d2 :: (ml2 ++ apostChar :: (sl2 ++ quoteChar :: [h2]))))))
      [ml1, sl1, [h1], dl2, ml2, sl2, [h2]] []
      hdl1a hdl1b (hhi_some 3 dl1 hdl1c)
      (hstop_cons _ _ _ (isDigitC_of_degSym d1 hd1)) t2
  have hne : (dl1 ++ d1 :: (ml1 ++ apostChar :: (sl1 ++ quoteChar :: h1 :: ' ' ::
      (dl2 ++ d2 :: (ml2 ++ apostChar :: (sl2 ++ quoteChar :: [h2])))))) ≠ ([] : List Char) := by
    cases dl1 with
    | nil => simp at hdl1b
    | cons a t => simp
  have hfa := findAll_of_whole padrao _ _ hne t1
  have hre : renderPair d1 dl1 ml1 sl1 h1 d2 dl2 ml2 sl2 h2 =
      dl1 ++ d1 :: (ml1 ++ apostChar :: (sl1 ++ quoteChar :: h1 :: ' ' ::
        (dl2 ++ d2 :: (ml2 ++ apostChar :: (sl2 ++ quoteChar :: [h2]))))) := by
    simp [renderPair, renderDMS, List.append_assoc]
  have hsent : pyUpperL (pyStripL (renderPair d1 dl1 ml1 sl1 h1 d2 dl2 ml2 sl2 h2)) ∉
      sentinelas :=
    not_sentinel_of_apost _ (by simp [renderPair, renderDMS])
  simp only [extrair_coordenadas]
  rw [show ((renderPair d1 dl1 ml1 sl1 h1 d2 dl2 ml2 sl2 h2).asString).toList =
    renderPair d1 dl1 ml1 sl1 h1 d2 dl2 ml2 sl2 h2 from rfl]
  rw [if_neg hsent, hre, hfa]
  exact mapM_one _ _ _ (convMatch_eval dl1 ml1 sl1 h1 dl2 ml2 sl2 h2 hsl1 hsl2 hh1 hh2)

/-! ## Matcher soundness: shape of the captures of any successful match -/

lemma runLen_le_length (cls : Char → Bool) : ∀ s : List Char, runLen cls s ≤ s.length := by
  intro s
  induction s with
  | nil => simp [runLen]
  | cons a t ih =>
    by_cases h : cls a = true
    · simp [runLen, h]; omega
    · simp [runLen, h]

lemma all_take_of_le_runLen (cls : Char → Bool) :
    ∀ (s : List Char) (m : Nat), m ≤ runLen cls s → ∀ c ∈ s.take m, cls c = true := by
  intro s
  induction s with
  | nil => intro m _ c hc; simp at hc
  | cons a t ih =>
    intro m hm c hc
    cases m with
    | zero => simp at hc
    | succ k =>
      by_cases hca : cls a = true
      · rw [show runLen cls (a :: t) = runLen cls t + 1 by simp [runLen, hca]] at hm
        rw [List.take_succ_cons] at hc
        rcases List.mem_cons.mp hc with rfl | hc2
        · exact hca
        · exact ih k (by omega) c hc2
      · rw [show runLen cls (a :: t) = 0 by simp [runLen, hca]] at hm
        omega

lemma maxRun_le_runLen (cls : Char → Bool) (hi : Option Nat) (s : List Char) :
    maxRun cls hi s ≤ runLen cls s := by
  unfold maxRun
  cases hi with
  | none => exact Nat.le_refl _
  | some k => exact Nat.min_le_left _ _

lemma maxRun_le_hi (cls : Char → Bool) (k : Nat) (s : List Char) :
    maxRun cls (some k) s ≤ k := Nat.min_le_right _ _

/-- Decomposition of a successful greedy repetition: some count `m` between
the bounds was consumed and the continuation succeeded on the rest. -/
lemma tryLen_sound (cont : List Char → Option (List (List Char) × List Char))
    (capQ : Bool) (s : List Char) (lo : Nat) :
    ∀ n caps r, tryLen cont capQ s lo n = some (caps, r) →
      ∃ m, m ≤ n ∧ lo ≤ m ∧ ∃ caps2, cont (s.drop m) = some (caps2, r) ∧
        caps = (if capQ then [s.take m] else []) ++ caps2 := by
  intro n
  induction n with
  | zero =>
    intro caps r h
    unfold tryLen at h
    split at h
    · exact absurd h (by simp)
    · split at h
      · next caps2 r2 heq =>
        injection h with h2
        injection h2 with h3 h4
        subst h4
        exact ⟨0, Nat.le_refl 0, by omega, caps2, by simpa using heq, by simp [← h3]⟩
      · exact absurd h (by simp)
  | succ k ih =>
    intro caps r h
    unfold tryLen at h
    split at h
    · exact absurd h (by simp)
    · split at h
      · next caps2 r2 heq =>
        injection h with h2
        injection h2 with h3 h4
        subst h4
        exact ⟨k + 1, Nat.le_refl _, by omega, caps2, by simpa using heq, by simp [← h3]⟩
      · obtain ⟨m, hm1, hm2, caps2, hc, he⟩ := ih caps r h
        exact ⟨m, by omega, hm2, caps2, hc, he⟩

lemma matchSeq_sound : ∀ (items : List RItem) (s : List Char) caps r,
    matchSeq items s = some (caps, r) → CapsOf items s caps r := by
  intro items
  induction items with
  | nil =>
    intro s caps r h
    simp only [matchSeq, Option.some.injEq, Prod.mk.injEq] at h
    obtain ⟨rfl, rfl⟩ := h
    exact CapsOf.nil s
  | cons it rest ih =>
    intro s caps r h
    simp only [matchSeq] at h
    obtain ⟨m, hmn, hlo, caps2, hcont, rfl⟩ := tryLen_sound _ _ _ _ _ _ _ h
    have hm_run : m ≤ runLen it.cls s := le_trans hmn (maxRun_le_runLen _ _ _)
    have hm_len : m ≤ s.length := le_trans hm_run (runLen_le_length it.cls s)
    have htk : (s.take m).length = m := by
      rw [List.length_take]
      omega
    have hcons := CapsOf.cons it rest (s.take m) (s.drop m) caps2 r
      (all_take_of_le_runLen it.cls s m hm_run)
      (by omega)
      (by
        intro k hk
        have h2 : m ≤ k := le_trans hmn (by rw [hk]; exact maxRun_le_hi _ _ _)
        omega)
      (ih _ _ _ hcont)
    rwa [List.take_append_drop] at hcons

lemma findAllAux_sound (pat : List RItem) : ∀ (f : Nat) (s : List Char) m,
    m ∈ findAllAux pat f s → ∃ s2 r, matchSeq pat s2 = some (m, r) := by
  intro f
  induction f with
  | zero => intro s m hm; exact absurd hm (by simp [findAllAux])
  | succ k ih =>
    intro s m hm
    cases s with
    | nil => exact absurd hm (by simp [findAllAux])
    | cons a t =>
      simp only [findAllAux] at hm
      cases hms : matchSeq pat (a :: t) with
      | some pr =>
        obtain ⟨caps, r⟩ := pr
        rw [hms] at hm
        rcases List.mem_cons.mp hm with rfl | hm2
        · exact ⟨a :: t, r, hms⟩
        · exact ih r m hm2
      | none =>
        rw [hms] at hm
        exact ih t m hm

lemma findAll_sound (pat : List RItem) (s : List Char) (m : List (List Char))
    (hm : m ∈ findAll pat s) : ∃ s2 r, matchSeq pat s2 = some (m, r) :=
  findAllAux_sound pat s.length s m hm

lemma capShapes_of_capsOf {items : List RItem} {s : List Char}
    {caps : List (List Char)} {r : List Char} (h : CapsOf items s caps r) :
    capShapes items caps := by
  induction h with
  | nil => rfl
  | cons it rest xs ys caps r hall hlo hhi htail ih =>
    obtain ⟨cls, lo, hi, cap⟩ := it
    cases cap with
    | false => simpa [capShapes] using ih
    | true =>
      simp only [capShapes]
      exact ⟨xs, caps, by simp, hall, hlo, hhi, ih⟩

/-- Every capture tuple the scan produces has the 8-component shape, its
hemisphere captures being single letters of the right classes. -/
lemma padrao_captures (s : List Char) (m : List (List Char)) (hm : m ∈ findAll padrao s) :
    ∃ gla mla sla hla glo mlo slo hlo2,
      m = [gla, mla, sla, [hla], glo, mlo, slo, [hlo2]] ∧
      isHemLatC hla = true ∧ isHemLonC hlo2 = true := by
  obtain ⟨s2, r, hms⟩ := findAll_sound padrao s m hm
  have hsh := capShapes_of_capsOf (matchSeq_sound padrao s2 m r hms)
  simp only [padrao, capShapes] at hsh
  obtain ⟨gla, c1, rfl, -, -, -, hsh⟩ := hsh
  obtain ⟨mla, c2, rfl, -, -, -, hsh⟩ := hsh
  obtain ⟨sla, c3, rfl, -, -, -, hsh⟩ := hsh
  obtain ⟨hla0, c4, rfl, hallh1, hloh1, hhih1, hsh⟩ := hsh
  obtain ⟨glo, c5, rfl, -, -, -, hsh⟩ := hsh
  obtain ⟨mlo, c6, rfl, -, -, -, hsh⟩ := hsh
  obtain ⟨slo, c7, rfl, -, -, -, hsh⟩ := hsh
  obtain ⟨hlo0, c8, rfl, hallh2, hloh2, hhih2, hsh⟩ := hsh
  have hl1 : hla0.length = 1 := le_antisymm (hhih1 1 rfl) hloh1
  have hl2 : hlo0.length = 1 := le_antisymm (hhih2 1 rfl) hloh2
  obtain ⟨hla, rfl⟩ := List.length_eq_one.mp hl1
  obtain ⟨hlo2, rfl⟩ := List.length_eq_one.mp hl2
  subst hsh
  exact ⟨gla, mla, sla, hla, glo, mlo, slo, hlo2, rfl,
    hallh1 hla (by simp), hallh2 hlo2 (by simp)⟩

/-! ## Except / mapM utilities -/

lemma except_bind_ok {α β : Type} (a : α) (g : α → Except PyError β) :
    (Except.ok a >>= g) = g a := rfl

lemma except_bind_err {α β : Type} (e : PyError) (g : α → Except PyError β) :
    ((Except.error e : Except PyError α) >>= g) = Except.error e := rfl

lemma mapM_ok_nil {α β : Type} (f : α → Except PyError β) (l : List β)
    (h : List.mapM f [] = Except.ok l) : l = [] := by
  simp only [List.mapM_nil] at h
  injection h with h
  exact h.symm

lemma mapM_ok_cons {α β : Type} (f : α → Except PyError β) (x : α) (xs : List α)
    (l : List β) (h : List.mapM f (x :: xs) = Except.ok l) :
    ∃ y ys, f x = Except.ok y ∧ List.mapM f xs = Except.ok ys ∧ l = y :: ys := by
  rw [List.mapM_cons] at h
  cases hfx : f x with
  | error e =>
    rw [hfx, except_bind_err] at h
    exact absurd h (by simp)
  | ok y =>
    rw [hfx, except_bind_ok] at h
    cases hxs : List.mapM f xs with
    | error e =>
      rw [hxs, except_bind_err] at h
      exact absurd h (by simp)
    | ok ys =>
      rw [hxs, except_bind_ok] at h
      injection h with h
      exact ⟨y, ys, rfl, rfl, h.symm⟩

lemma mapM_ok_mem {α β : Type} (f : α → Except PyError β) :
    ∀ (xs : List α) (l : List β), List.mapM f xs = Except.ok l →
      ∀ p ∈ l, ∃ m ∈ xs, f m = Except.ok p := by
  intro xs
  induction xs with
  | nil =>
    intro l h p hp
    rw [mapM_ok_nil f l h] at hp
    exact absurd hp (List.not_mem_nil p)
  | cons x xs ih =>
    intro l h p hp
    obtain ⟨y, ys, hfx, hrest, rfl⟩ := mapM_ok_cons f x xs l h
    rcases List.mem_cons.mp hp with rfl | hp2
    · exact ⟨x, by simp, hfx⟩
    · obtain ⟨m, hm1, hm2⟩ := ih ys hrest p hp2
      exact ⟨m, by simp [hm1], hm2⟩

lemma mapM_ok_of_forall {α β : Type} (f : α → Except PyError β) :
    ∀ xs : List α, (∀ m ∈ xs, ∃ p, f m = Except.ok p) →
      ∃ l, List.mapM f xs = Except.ok l := by
  intro xs
  induction xs with
  | nil => intro _; exact ⟨[], by simp only [List.mapM_nil]; rfl⟩
  | cons x xs ih =>
    intro hall
    obtain ⟨p, hp⟩ := hall x (by simp)
    obtain ⟨l, hl⟩ := ih fun m hm => hall m (by simp [hm])
    refine ⟨p :: l, ?_⟩
    rw [List.mapM_cons, hp, except_bind_ok, hl, except_bind_ok]
    rfl

lemma mapM_err_of_head {α β : Type} (f : α → Except PyError β) (x : α) (xs : List α)
    (e : PyError) (h : f x = Except.error e) :
    List.mapM f (x :: xs) = Except.error e := by
  rw [List.mapM_cons, h, except_bind_err]

/-! ## Structure of a successful expansion -/

lemma expandRow_ok_eq (coluna : String) (row : Row) (l : List Row)
    (h : expandRow coluna row = Except.ok l) : l = expandRowPure coluna row := by
  unfold expandRow at h
  cases hlc : lookupCell row coluna with
  | error e => rw [hlc, except_bind_err] at h; exact absurd h (by simp)
  | ok cell =>
    rw [hlc, except_bind_ok] at h
    cases hex : extrair_coordenadas (some (pyStrCell cell)) with
    | error e => rw [hex, except_bind_err] at h; exact absurd h (by simp)
    | ok pontos =>
      rw [hex, except_bind_ok] at h
      injection h with h
      rw [← h]
      simp only [expandRowPure, pairsOfRow, hlc, hex]

/-- A successful expansion is exactly the in-order concatenation of the
per-row expansions. -/
lemma expandir_ok_eq (df : DataFrame) (coluna : String) (out : List Row)
    (h : expandir_dataframe df coluna = Except.ok out) :
    out = (df.map (expandRowPure coluna)).flatten := by
  unfold expandir_dataframe at h
  cases hls : List.mapM (expandRow coluna) df with
  | error e => rw [hls, except_bind_err] at h; exact absurd h (by simp)
  | ok ls =>
    rw [hls, except_bind_ok] at h
    injection h with h
    rw [← h]
    clear h
    induction df generalizing ls with
    | nil => rw [mapM_ok_nil _ _ hls]; rfl
    | cons row rows ih =>
      obtain ⟨y, ys, hy, hrest, rfl⟩ := mapM_ok_cons _ _ _ _ hls
      rw [expandRow_ok_eq _ _ _ hy]
      simp only [List.map_cons, List.flatten_cons, ih ys hrest]

/-! ## Dictionary lemmas -/

lemma find?_map_of_any (l : Row) (k : String) (v : Cell)
    (h : (l.any fun p => p.1 = k) = true) :
    ((l.map fun p => if p.1 = k then (k, v) else p).find? fun p => p.1 = k) =
      some (k, v) := by
  induction l with
  | nil => simp at h
  | cons p t ih =>
    by_cases hp : p.1 = k
    · rw [List.map_cons, if_pos hp]
      exact List.find?_cons_of_pos _ (by simp)
    · rw [List.map_cons, if_neg hp]
      rw [List.find?_cons_of_neg _ (by simp [hp])]
      refine ih ?_
      rw [List.any_cons] at h
      simpa [hp] using h

lemma find?_map_ne (l : Row) (k k2 : String) (v : Cell) (hne : k2 ≠ k) :
    ((l.map fun p => if p.1 = k then (k, v) else p).find? fun p => p.1 = k2) =
      l.find? fun p => p.1 = k2 := by
  induction l with
  | nil => rfl
  | cons p t ih =>
    by_cases hp : p.1 = k
    · rw [List.map_cons, if_pos hp]
      rw [List.find?_cons_of_neg _ (by simp; exact fun e => hne e.symm)]
      rw [List.find?_cons_of_neg _ (by simp [hp]; exact fun e => hne e.symm)]
      exact ih
    · rw [List.map_cons, if_neg hp]
      by_cases hp2 : p.1 = k2
      · rw [List.find?_cons_of_pos _ (by simp [hp2]),
          List.find?_cons_of_pos _ (by simp [hp2])]
      · rw [List.find?_cons_of_neg _ (by simp [hp2]),
          List.find?_cons_of_neg _ (by simp [hp2])]
        exact ih

lemma dictLookup_dictSet_self (row : Row) (k : String) (v : Cell) :
    dictLookup (dictSet row k v) k = some v := by
  unfold dictLookup dictSet
  by_cases h : (row.any fun p => p.1 = k) = true
  · rw [if_pos h, find?_map_of_any row k v h]
    rfl
  · rw [if_neg h, List.find?_append]
    have h2 : (row.find? fun p => p.1 = k) = none := by
      rw [List.find?_eq_none]
      intro x hx hpx
      exact h (List.any_eq_true.mpr ⟨x, hx, hpx⟩)
    rw [h2]
    simp [List.find?_cons_of_pos]

lemma dictLookup_dictSet_other (row : Row) (k k2 : String) (v : Cell) (hne : k2 ≠ k) :
    dictLookup (dictSet row k v) k2 = dictLookup row k2 := by
  unfold dictLookup dictSet
  by_cases h : (row.any fun p => p.1 = k) = true
  · rw [if_pos h, find?_map_ne row k k2 v hne]
  · rw [if_neg h, List.find?_append]
    have h2 : (([(k, v)] : Row).find? fun p => p.1 = k2) = none := by
      rw [List.find?_eq_none]
      intro x hx hpx
      simp at hx
      subst hx
      simp at hpx
      exact hne hpx.symm
    rw [h2]
    cases hr : row.find? fun p => p.1 = k2 <;> rfl

lemma mergePonto_PONTO (row : Row) (i : Nat) (p : CoordinatePair) :
    dictLookup (mergePonto row i p) "PONTO" = some (Cell.str (pontoLabel i)) := by
  unfold mergePonto
  rw [dictLookup_dictSet_other _ _ _ _ (by decide),
    dictLookup_dictSet_other _ _ _ _ (by decide),
    dictLookup_dictSet_other _ _ _ _ (by decide),
    dictLookup_dictSet_other _ _ _ _ (by decide),
    dictLookup_dictSet_self]

lemma mergePonto_LATITUDE (row : Row) (i : Nat) (p : CoordinatePair) :
    dictLookup (mergePonto row i p) "LATITUDE" = some (Cell.rat p.latitude) := by
  unfold mergePonto
  rw [dictLookup_dictSet_other _ _ _ _ (by decide),
    dictLookup_dictSet_other _ _ _ _ (by decide),
    dictLookup_dictSet_other _ _ _ _ (by decide),
    dictLookup_dictSet_self]

lemma mergePonto_LONGITUDE (row : Row) (i : Nat) (p : CoordinatePair) :
    dictLookup (mergePonto row i p) "LONGITUDE" = some (Cell.rat p.longitude) := by
  unfold mergePonto
  rw [dictLookup_dictSet_other _ _ _ _ (by decide),
    dictLookup_dictSet_other _ _ _ _ (by decide),
    dictLookup_dictSet_self]

lemma mergePonto_LATITUDE_DMS (row : Row) (i : Nat) (p : CoordinatePair) :
    dictLookup (mergePonto row i p) "LATITUDE_DMS" = some (Cell.str p.latitude_dms) := by
  unfold mergePonto
  rw [dictLookup_dictSet_other _ _ _ _ (by decide),
    dictLookup_dictSet_self]

lemma mergePonto_LONGITUDE_DMS (row : Row) (i : Nat) (p : CoordinatePair) :
    dictLookup (mergePonto row i p) "LONGITUDE_DMS" = some (Cell.str p.longitude_dms) := by
  unfold mergePonto
  rw [dictLookup_dictSet_self]

/-- A key other than the five added ones keeps its binding (present or
absent) through the merge. -/
lemma mergePonto_other (row : Row) (i : Nat) (p : CoordinatePair) (k : String)
    (h1 : k ≠ "PONTO") (h2 : k ≠ "LATITUDE") (h3 : k ≠ "LONGITUDE")
    (h4 : k ≠ "LATITUDE_DMS") (h5 : k ≠ "LONGITUDE_DMS") :
    dictLookup (mergePonto row i p) k = dictLookup row k := by
  unfold mergePonto
  rw [dictLookup_dictSet_other _ _ _ _ h5, dictLookup_dictSet_other _ _ _ _ h4,
    dictLookup_dictSet_other _ _ _ _ h3, dictLookup_dictSet_other _ _ _ _ h2,
    dictLookup_dictSet_other _ _ _ _ h1]

/-! ## Remaining helper lemmas -/

lemma pyFloat_nonneg (l : List Char) (q : ℚ) (h : pyFloat l = some q) : 0 ≤ q := by
  unfold pyFloat at h
  split at h
  · injection h with h
    rw [← h]
    positivity
  · exact absurd h (by simp)

lemma getLast_append_singleton {α : Type} : ∀ (l : List α) (a : α),
    (l ++ [a]).getLast? = some a := by
  intro l a
  induction l with
  | nil => rfl
  | cons x t ih =>
    cases t with
    | nil => rfl
    | cons b bs =>
      rw [List.cons_append, List.cons_append, List.getLast?_cons_cons, ← List.cons_append]
      exact ih

/-- The last character of a reconstructed DMS string is its hemisphere
letter. -/
lemma dms_getLast (gla mla sln : List Char) (hla : Char) :
    ((gla ++ 'º' :: mla ++ apostChar :: sln ++ [quoteChar, hla]).asString).toList.getLast? =
      some hla := by
  rw [show ((gla ++ 'º' :: mla ++ apostChar :: sln ++ [quoteChar, hla]).asString).toList =
    gla ++ 'º' :: mla ++ apostChar :: sln ++ [quoteChar, hla] from rfl]
  rw [show gla ++ 'º' :: mla ++ apostChar :: sln ++ [quoteChar, hla] =
    (gla ++ 'º' :: mla ++ apostChar :: sln ++ [quoteChar]) ++ [hla] by simp]
  exact getLast_append_singleton _ _

/-! ## Claims -/

/-- C9: a null input, and any input whose trimmed upper-cased text is one of
the sentinel strings `"NÃO CONSTA"`, `"NAO CONSTA"`, `"NOT INFORMED"` or the
empty string, makes `extrair_coordenadas` return the empty sequence
immediately. -/
theorem claim_C9_sentinels :
    extrair_coordenadas none = Except.ok [] ∧
    ∀ t : String, pyUpperL (pyStripL t.toList) ∈ sentinelas →
      extrair_coordenadas (some t) = Except.ok [] := by
  refine ⟨rfl, ?_⟩
  intro t ht
  simp only [extrair_coordenadas]
  rw [if_pos ht]

/-- Witness for C9 at the concrete input `"  não consta  "` (lower case,
surrounded by whitespace). -/
theorem claim_C9_sentinels_witness :
    pyUpperL (pyStripL "  não consta  ".toList) ∈ sentinelas ∧
    extrair_coordenadas (some "  não consta  ") = Except.ok [] :=
  ⟨by decide, claim_C9_sentinels.2 "  não consta  " (by decide)⟩

/-- C6 counterexample: on a table with no rows, any column name is absent
from the table's columns, yet the expander returns an empty result instead
of the `ColumnNotFound` (`KeyError`) error — the claim fails for empty
tables because the error can only be raised inside the per-row loop. -/
theorem claim_C6_counterexample :
    expandir_dataframe [] "COLUNA" = Except.ok [] ∧
    expandir_dataframe [] "COLUNA" ≠ Except.error PyError.keyError := by
  exact ⟨rfl, by decide⟩

/-- C6 (amended): on a table with at least one row, a coordinate-column name
absent from every row's columns makes the expander fail with the single
error kind `KeyError` (`ColumnNotFound`), producing no output rows. -/
theorem claim_C6_column_not_found (df : DataFrame) (coluna : String)
    (hne : df ≠ []) (habs : ∀ row ∈ df, dictLookup row coluna = none) :
    expandir_dataframe df coluna = Except.error PyError.keyError := by
  cases df with
  | nil => exact absurd rfl hne
  | cons row rows =>
    have h1 : lookupCell row coluna = Except.error PyError.keyError := by
      unfold lookupCell
      have h0 := habs row (by simp)
      unfold dictLookup at h0
      cases hf : row.find? fun p => p.1 = coluna with
      | none => rfl
      | some p =>
        rw [hf] at h0
        exact absurd h0 (by simp)
    have h2 : expandRow coluna row = Except.error PyError.keyError := by
      unfold expandRow
      rw [h1, except_bind_err]
    unfold expandir_dataframe
    rw [mapM_err_of_head _ _ _ _ h2, except_bind_err]

/-- Witness for C6 (amended) on a one-row table lacking column `"B"`. -/
theorem claim_C6_column_not_found_witness :
    ([[("A", Cell.str "x")]] : DataFrame) ≠ [] ∧
    (∀ row ∈ ([[("A", Cell.str "x")]] : DataFrame), dictLookup row "B" = none) ∧
    expandir_dataframe [[("A", Cell.str "x")]] "B" = Except.error PyError.keyError :=
  ⟨by simp, by decide, claim_C6_column_not_found [[("A", Cell.str "x")]] "B"
    (by simp) (by decide)⟩

/-- C5: hemisphere matching is case-SENSITIVE in the source — `re.findall`
is called without `re.IGNORECASE`, so the lower-case variant of a
well-formed pair is not matched at all (returning no pairs), while the
upper-case variant yields the pair; the `hem.upper()` comparisons in the
loop body are unreachable dead defence for lower-case letters. -/
theorem claim_C5_lowercase_not_recognized :
    extrair_coordenadas (some "3º03'52,9838\"s 59º54'46,6013\"w") = Except.ok [] ∧
    extrair_coordenadas (some "3º03'52,9838\"S 59º54'46,6013\"W") ≠ Except.ok [] := by
  constructor
  · decide
  · have hr := extrair_render 'º' "3".toList "03".toList "52,9838".toList 'S'
      'º' "59".toList "54".toList "46,6013".toList 'W'
      (by decide) (by decide) (by decide) (by decide) (by decide)
      (by decide) (by decide) (by decide) (by decide) (by decide)
    rw [show (renderPair 'º' "3".toList "03".toList "52,9838".toList 'S'
      'º' "59".toList "54".toList "46,6013".toList 'W').asString =
      "3º03'52,9838\"S 59º54'46,6013\"W" from by decide] at hr
    intro h
    rw [h] at hr
    exact absurd hr (by simp)

/-- C3 counterexample: `parse` CAN fail.  The regex seconds class `[\d,\.]+`
matches `".."`, and `float("..")` raises `ValueError`, which propagates out
of `extrair_coordenadas` — so the contract "never fails" is violated. -/
theorem claim_C3_counterexample :
    extrair_coordenadas (some "1º2'..\"S 4º5'6\"W") = Except.error PyError.valueError ∧
    ¬ ∃ l, extrair_coordenadas (some "1º2'..\"S 4º5'6\"W") = Except.ok l := by
  have h : extrair_coordenadas (some "1º2'..\"S 4º5'6\"W") =
      Except.error PyError.valueError := by
    with_unfolding_all decide
  refine ⟨h, ?_⟩
  rintro ⟨l, hl⟩
  rw [h] at hl
  exact absurd hl (by simp)

/-- C3 (amended): `parse` never fails provided every matched seconds token
still converts (at most one decimal separator and at least one digit after
comma normalisation); in particular it returns a sequence on a null input
and on any input with no match. -/
theorem claim_C3_never_fails_when_seconds_convert :
    extrair_coordenadas none = Except.ok [] ∧
    (∀ t : String, findAll padrao t.toList = [] →
      extrair_coordenadas (some t) = Except.ok []) ∧
    ∀ t : String,
      (∀ gla mla sla hla glo mlo slo hlo2,
        [gla, mla, sla, [hla], glo, mlo, slo, [hlo2]] ∈ findAll padrao t.toList →
          (pyFloat (normSec sla)).isSome = true ∧ (pyFloat (normSec slo)).isSome = true) →
      ∃ l, extrair_coordenadas (some t) = Except.ok l := by
  refine ⟨rfl, ?_, ?_⟩
  · intro t hfa
    by_cases hs : pyUpperL (pyStripL t.toList) ∈ sentinelas
    · simp only [extrair_coordenadas]
      rw [if_pos hs]
    · simp only [extrair_coordenadas]
      rw [if_neg hs, hfa]
      rfl
  · intro t hconv
    by_cases hs : pyUpperL (pyStripL t.toList) ∈ sentinelas
    · refine ⟨[], ?_⟩
      simp only [extrair_coordenadas]
      rw [if_pos hs]
    · have hforall : ∀ m ∈ findAll padrao t.toList, ∃ p, convMatch m = Except.ok p := by
        intro m hm
        obtain ⟨gla, mla, sla, hla, glo, mlo, slo, hlo2, rfl, -, -⟩ :=
          padrao_captures t.toList m hm
        obtain ⟨hc1, hc2⟩ := hconv gla mla sla hla glo mlo slo hlo2 hm
        obtain ⟨q1, hq1⟩ := Option.isSome_iff_exists.mp hc1
        obtain ⟨q2, hq2⟩ := Option.isSome_iff_exists.mp hc2
        simp only [convMatch, hq1, hq2]
        exact ⟨_, rfl⟩
      obtain ⟨l, hl⟩ := mapM_ok_of_forall convMatch (findAll padrao t.toList) hforall
      refine ⟨l, ?_⟩
      simp only [extrair_coordenadas]
      rw [if_neg hs]
      exact hl

/-- Witness for C3 (amended): a matchless input yields the EMPTY sequence,
and an input whose matched seconds tokens all convert yields a sequence. -/
theorem claim_C3_never_fails_when_seconds_convert_witness :
    findAll padrao "no coordinates here".toList = [] ∧
    extrair_coordenadas (some "no coordinates here") = Except.ok [] ∧
    ∃ l, extrair_coordenadas (some "8º7'6\"S 5º4'3\"W") = Except.ok l := by
  refine ⟨by decide,
    claim_C3_never_fails_when_seconds_convert.2.1 "no coordinates here" (by decide), ?_⟩
  refine claim_C3_never_fails_when_seconds_convert.2.2 "8º7'6\"S 5º4'3\"W" ?_
  intro gla mla sla hla glo mlo slo hlo2 hm
  rw [show findAll padrao "8º7'6\"S 5º4'3\"W".toList =
    [[['8'], ['7'], ['6'], ['S'], ['5'], ['4'], ['3'], ['W']]] from by decide] at hm
  simp only [List.mem_singleton, List.cons.injEq, and_true] at hm
  obtain ⟨rfl, rfl, rfl, -, rfl, rfl, rfl, -⟩ := hm
  exact ⟨by decide, by decide⟩

/-- C1: for a text that is exactly one well-formed DMS pair of the grammar
(arbitrary well-formed tokens, either degree symbol, hemisphere letters of
the accepted classes), `extrair_coordenadas` returns exactly one pair whose
decimal values equal `sign * (deg + min/60 + sec/3600)`, the latitude
negated exactly when the hemisphere letter is `S` and the longitude exactly
when it is `W`. -/
theorem claim_C1_decimal_conversion (d1 : Char) (dl1 ml1 sl1 : List Char) (h1 : Char)
    (d2 : Char) (dl2 ml2 sl2 : List Char) (h2 : Char)
    (hd1 : isDegSym d1 = true) (hd2 : isDegSym d2 = true)
    (hdl1 : DegTok dl1) (hml1 : MinTok ml1) (hsl1 : SecTok sl1)
    (hdl2 : DegTok dl2) (hml2 : MinTok ml2) (hsl2 : SecTok sl2)
    (hh1 : isHemLatC h1 = true) (hh2 : isHemLonC h2 = true) :
    ∃ dms1 dms2 : String,
      extrair_coordenadas (some (renderPair d1 dl1 ml1 sl1 h1 d2 dl2 ml2 sl2 h2).asString) =
        Except.ok
          [{ latitude := (if h1 = 'S' then (-1 : ℚ) else 1) *
               ((natOfDigits dl1 : ℚ) + (natOfDigits ml1 : ℚ) / 60 + secVal sl1 / 3600),
             longitude := (if h2 = 'W' then (-1 : ℚ) else 1) *
               ((natOfDigits dl2 : ℚ) + (natOfDigits ml2 : ℚ) / 60 + secVal sl2 / 3600),
             latitude_dms := dms1, longitude_dms := dms2 }] :=
  ⟨_, _, extrair_render d1 dl1 ml1 sl1 h1 d2 dl2 ml2 sl2 h2
    hd1 hd2 hdl1 hml1 hsl1 hdl2 hml2 hsl2 hh1 hh2⟩

/-- Witness for C1 at `12°34'56.7"N 123°45'6"O` (the `°` degree symbol, a
dot decimal separator, hemisphere letters `N`/`O`). -/
theorem claim_C1_decimal_conversion_witness :
    isDegSym '°' = true ∧ DegTok "12".toList ∧ MinTok "34".toList ∧
    SecTok "56.7".toList ∧ DegTok "123".toList ∧ MinTok "45".toList ∧
    SecTok "6".toList ∧
    (∃ dms1 dms2 : String,
      extrair_coordenadas (some (renderPair '°' "12".toList "34".toList "56.7".toList 'N'
          '°' "123".toList "45".toList "6".toList 'O').asString) =
        Except.ok
          [{ latitude := (if ('N' : Char) = 'S' then (-1 : ℚ) else 1) *
               ((natOfDigits "12".toList : ℚ) + (natOfDigits "34".toList : ℚ) / 60 +
                 secVal "56.7".toList / 3600),
             longitude := (if ('O' : Char) = 'W' then (-1 : ℚ) else 1) *
               ((natOfDigits "123".toList : ℚ) + (natOfDigits "45".toList : ℚ) / 60 +
                 secVal "6".toList / 3600),
             latitude_dms := dms1, longitude_dms := dms2 }]) :=
  ⟨by decide, by decide, by decide, by decide, by decide, by decide, by decide,
    claim_C1_decimal_conversion '°' "12".toList "34".toList "56.7".toList 'N'
      '°' "123".toList "45".toList "6".toList 'O'
      (by decide) (by decide) (by decide) (by decide) (by decide)
      (by decide) (by decide) (by decide) (by decide) (by decide)⟩

/-- C7: the reconstructed DMS strings are built from the captured tokens
with the seconds comma replaced by a dot, the hemisphere letter exactly as
captured, and the degree symbol emitted as `º` even when the source text
used `°`. -/
theorem claim_C7_dms_reconstruction (d1 : Char) (dl1 ml1 sl1 : List Char) (h1 : Char)
    (d2 : Char) (dl2 ml2 sl2 : List Char) (h2 : Char)
    (hd1 : isDegSym d1 = true) (hd2 : isDegSym d2 = true)
    (hdl1 : DegTok dl1) (hml1 : MinTok ml1) (hsl1 : SecTok sl1)
    (hdl2 : DegTok dl2) (hml2 : MinTok ml2) (hsl2 : SecTok sl2)
    (hh1 : isHemLatC h1 = true) (hh2 : isHemLonC h2 = true) :
    ∃ lat lon : ℚ,
      extrair_coordenadas (some (renderPair d1 dl1 ml1 sl1 h1 d2 dl2 ml2 sl2 h2).asString) =
        Except.ok
          [{ latitude := lat, longitude := lon,
             latitude_dms :=
               (dl1 ++ 'º' :: ml1 ++ apostChar :: normSec sl1 ++ [quoteChar, h1]).asString,
             longitude_dms :=
               (dl2 ++ 'º' :: ml2 ++ apostChar :: normSec sl2 ++ [quoteChar, h2]).asString }] :=
  ⟨_, _, extrair_render d1 dl1 ml1 sl1 h1 d2 dl2 ml2 sl2 h2
    hd1 hd2 hdl1 hml1 hsl1 hdl2 hml2 hsl2 hh1 hh2⟩

/-- Witness for C7 at the spec's example: the input latitude
`3º03'52,9838"S` reconstructs as `3º03'52.9838"S` (comma normalised to
dot). -/
theorem claim_C7_dms_reconstruction_witness :
    ∃ lat lon : ℚ,
      extrair_coordenadas (some (renderPair 'º' "3".toList "03".toList "52,9838".toList 'S'
          'º' "59".toList "54".toList "46,6013".toList 'W').asString) =
        Except.ok
          [{ latitude := lat, longitude := lon,
             latitude_dms := "3º03'52.9838\"S", longitude_dms := "59º54'46.6013\"W" }] := by
  obtain ⟨lat, lon, h⟩ := claim_C7_dms_reconstruction 'º' "3".toList "03".toList
    "52,9838".toList 'S' 'º' "59".toList "54".toList "46,6013".toList 'W'
    (by decide) (by decide) (by decide) (by decide) (by decide)
    (by decide) (by decide) (by decide) (by decide) (by decide)
  rw [show ("3".toList ++ 'º' :: "03".toList ++ apostChar ::
      normSec "52,9838".toList ++ [quoteChar, 'S']).asString = "3º03'52.9838\"S"
    from by decide] at h
  rw [show ("59".toList ++ 'º' :: "54".toList ++ apostChar ::
      normSec "46,6013".toList ++ [quoteChar, 'W']).asString = "59º54'46.6013\"W"
    from by decide] at h
  exact ⟨lat, lon, h⟩

/-- C4 counterexample: at `0º0'0"S 4º5'6"O` the emitted pair has an `S`
latitude that is zero (not negative, because `-0 = 0`) and an `O` longitude
that is positive — the code negates the longitude only for `W`, so `O`
(Oeste) does NOT make it negative, contradicting the claim on both
counts. -/
theorem claim_C4_counterexample :
    extrair_coordenadas (some "0º0'0\"S 4º5'6\"O") =
      Except.ok
        [{ latitude := 0, longitude := (4 : ℚ) + 5/60 + 6/3600,
           latitude_dms := "0º0'0\"S", longitude_dms := "4º5'6\"O" }] ∧
    ¬ ((0 : ℚ) < 0) ∧ ¬ ((4 : ℚ) + 5/60 + 6/3600 < 0) := by
  refine ⟨by with_unfolding_all decide, by norm_num, by norm_num⟩

/-- C4 (amended): for every pair emitted by the parser, an `S` hemisphere
letter makes the latitude non-positive, `N` non-negative; a `W` longitude
letter makes the longitude non-positive, while `O` leaves it non-negative
(only `W` is negated by the code). -/
theorem claim_C4_sign_rule (t : String) (l : List CoordinatePair)
    (h : extrair_coordenadas (some t) = Except.ok l) :
    ∀ p ∈ l,
      (p.latitude_dms.toList.getLast? = some 'S' → p.latitude ≤ 0) ∧
      (p.latitude_dms.toList.getLast? = some 'N' → 0 ≤ p.latitude) ∧
      (p.longitude_dms.toList.getLast? = some 'W' → p.longitude ≤ 0) ∧
      (p.longitude_dms.toList.getLast? = some 'O' → 0 ≤ p.longitude) := by
  intro p hp
  simp only [extrair_coordenadas] at h
  by_cases hs : pyUpperL (pyStripL t.toList) ∈ sentinelas
  · rw [if_pos hs] at h
    injection h with h
    rw [← h] at hp
    exact absurd hp (List.not_mem_nil p)
  · rw [if_neg hs] at h
    obtain ⟨m, hm, hcm⟩ := mapM_ok_mem convMatch _ l h p hp
    obtain ⟨gla, mla, sla, hla, glo, mlo, slo, hlo2, rfl, hh1, hh2⟩ :=
      padrao_captures t.toList m hm
    cases hq1 : pyFloat (normSec sla) with
    | none =>
      simp only [convMatch, hq1] at hcm
      exact absurd hcm (by simp)
    | some q1 =>
      cases hq2 : pyFloat (normSec slo) with
      | none =>
        simp only [convMatch, hq1, hq2] at hcm
        exact absurd hcm (by simp)
      | some q2 =>
        simp only [convMatch, hq1, hq2] at hcm
        injection hcm with hcm
        have hlatdms : p.latitude_dms =
            (gla ++ 'º' :: mla ++ apostChar :: normSec sla ++ [quoteChar, hla]).asString :=
          (congrArg CoordinatePair.latitude_dms hcm).symm
        have hlondms : p.longitude_dms =
            (glo ++ 'º' :: mlo ++ apostChar :: normSec slo ++ [quoteChar, hlo2]).asString :=
          (congrArg CoordinatePair.longitude_dms hcm).symm
        have hlat : p.latitude =
            (if pyUpperL [hla] = ['S'] then
              -((natOfDigits gla : ℚ) + (natOfDigits mla : ℚ) / 60 + q1 / 3600)
            else (natOfDigits gla : ℚ) + (natOfDigits mla : ℚ) / 60 + q1 / 3600) :=
          (congrArg CoordinatePair.latitude hcm).symm
        have hlon : p.longitude =
            (if pyUpperL [hlo2] = ['W'] then
              -((natOfDigits glo : ℚ) + (natOfDigits mlo : ℚ) / 60 + q2 / 3600)
            else (natOfDigits glo : ℚ) + (natOfDigits mlo : ℚ) / 60 + q2 / 3600) :=
          (congrArg CoordinatePair.longitude hcm).symm
        have hlat0 : (0 : ℚ) ≤
            (natOfDigits gla : ℚ) + (natOfDigits mla : ℚ) / 60 + q1 / 3600 := by
          have := pyFloat_nonneg _ _ hq1
          positivity
        have hlon0 : (0 : ℚ) ≤
            (natOfDigits glo : ℚ) + (natOfDigits mlo : ℚ) / 60 + q2 / 3600 := by
          have := pyFloat_nonneg _ _ hq2
          positivity
        refine ⟨?_, ?_, ?_, ?_⟩
        · intro hend
          rw [hlatdms, dms_getLast] at hend
          injection hend with hend
          subst hend
          rw [hlat, if_pos (by decide)]
          exact neg_nonpos.mpr hlat0
        · intro hend
          rw [hlatdms, dms_getLast] at hend
          injection hend with hend
          subst hend
          rw [hlat, if_neg (by decide)]
          exact hlat0
        · intro hend
          rw [hlondms, dms_getLast] at hend
          injection hend with hend
          subst hend
          rw [hlon, if_pos (by decide)]
          exact neg_nonpos.mpr hlon0
        · intro hend
          rw [hlondms, dms_getLast] at hend
          injection hend with hend
          subst hend
          rw [hlon, if_neg (by decide)]
          exact hlon0

/-- Witness for C4 (amended) at `1º2'3"S 4º5'6"W`. -/
theorem claim_C4_sign_rule_witness :
    extrair_coordenadas (some "1º2'3\"S 4º5'6\"W") =
      Except.ok
        [{ latitude := -((1 : ℚ) + 2/60 + 3/3600),
           longitude := -((4 : ℚ) + 5/60 + 6/3600),
           latitude_dms := "1º2'3\"S", longitude_dms := "4º5'6\"W" }] ∧
    ({ latitude := -((1 : ℚ) + 2/60 + 3/3600), longitude := -((4 : ℚ) + 5/60 + 6/3600),
       latitude_dms := "1º2'3\"S", longitude_dms := "4º5'6\"W" } :
        CoordinatePair).latitude ≤ 0 := by
  have h : extrair_coordenadas (some "1º2'3\"S 4º5'6\"W") =
      Except.ok
        [{ latitude := -((1 : ℚ) + 2/60 + 3/3600),
           longitude := -((4 : ℚ) + 5/60 + 6/3600),
           latitude_dms := "1º2'3\"S", longitude_dms := "4º5'6\"W" }] := by
    with_unfolding_all decide
  refine ⟨h, ?_⟩
  exact (claim_C4_sign_rule _ _ h _ (by simp)).1 (by decide)

/-! ## Small-step evaluation helpers for concrete expansions -/

lemma mapM_two (f : List (List Char) → Except PyError CoordinatePair)
    (m1 m2 : List (List Char)) (p1 p2 : CoordinatePair)
    (h1 : f m1 = Except.ok p1) (h2 : f m2 = Except.ok p2) :
    List.mapM f [m1, m2] = Except.ok [p1, p2] := by
  show List.mapM.loop f [m1, m2] [] = Except.ok [p1, p2]
  show (f m1 >>= fun b => List.mapM.loop f [m2] [b]) = Except.ok [p1, p2]
  rw [h1, except_bind_ok]
  show (f m2 >>= fun b => List.mapM.loop f [] [b, p1]) = Except.ok [p1, p2]
  rw [h2, except_bind_ok]
  rfl

lemma extrair_eval (t : String) (ms : List (List (List Char))) (ps : List CoordinatePair)
    (hsent : pyUpperL (pyStripL t.toList) ∉ sentinelas)
    (hfa : findAll padrao t.toList = ms)
    (hconv : List.mapM convMatch ms = Except.ok ps) :
    extrair_coordenadas (some t) = Except.ok ps := by
  simp only [extrair_coordenadas]
  rw [if_neg hsent, hfa, hconv]

lemma expandRow_eval (row : Row) (col txt : String) (ps : List CoordinatePair)
    (hc : lookupCell row col = Except.ok (Cell.str txt))
    (he : extrair_coordenadas (some txt) = Except.ok ps) :
    expandRow col row = Except.ok (ps.enum.map fun ip => mergePonto row (ip.1 + 1) ip.2) := by
  unfold expandRow
  rw [hc, except_bind_ok, show pyStrCell (Cell.str txt) = txt from rfl, he, except_bind_ok]
  rfl

lemma pairsOfRow_eval (row : Row) (col txt : String) (ps : List CoordinatePair)
    (hc : lookupCell row col = Except.ok (Cell.str txt))
    (he : extrair_coordenadas (some txt) = Except.ok ps) :
    pairsOfRow col row = ps := by
  simp only [pairsOfRow, hc, show pyStrCell (Cell.str txt) = txt from rfl, he]

lemma expandir_eval_nil (col : String) : expandir_dataframe [] col = Except.ok [] := rfl

lemma expandir_eval_cons (row : Row) (df : DataFrame) (col : String)
    (l ls : List Row)
    (h1 : expandRow col row = Except.ok l)
    (h2 : expandir_dataframe df col = Except.ok ls) :
    expandir_dataframe (row :: df) col = Except.ok (l ++ ls) := by
  unfold expandir_dataframe at h2 ⊢
  cases hm : List.mapM (expandRow col) df with
  | error e =>
    rw [hm, except_bind_err] at h2
    exact absurd h2 (by simp)
  | ok ls0 =>
    rw [hm, except_bind_ok] at h2
    injection h2 with h2
    simp only [List.mapM_cons, h1, except_bind_ok, hm]
    show (pure (l :: ls0) >>= fun ls2 => pure ls2.flatten : Except PyError (List Row)) =
      Except.ok (l ++ ls)
    rw [show (pure (l :: ls0) : Except PyError (List (List Row))) = Except.ok (l :: ls0)
      from rfl, except_bind_ok]
    rw [show (l :: ls0).flatten = l ++ ls0.flatten from rfl, h2]
    rfl

/-- C2: a successful expansion emits, in source-row order, each source row's
pairs in extraction order (rows with zero pairs vanishing), so the output
equals the flattened per-row expansions and its length is the sum of the
per-row pair counts. -/
theorem claim_C2_row_expansion (df : DataFrame) (coluna : String) (out : List Row)
    (h : expandir_dataframe df coluna = Except.ok out) :
    out = (df.map fun row =>
        (pairsOfRow coluna row).enum.map fun ip => mergePonto row (ip.1 + 1) ip.2).flatten ∧
    out.length = (df.map fun row => (pairsOfRow coluna row).length).sum := by
  have h1 := expandir_ok_eq df coluna out h
  constructor
  · rw [h1]
    rfl
  · rw [h1, List.length_flatten, List.map_map]
    have h2 : ∀ df2 : DataFrame,
        (List.map (List.length ∘ expandRowPure coluna) df2).sum =
          (List.map (fun row => (pairsOfRow coluna row).length) df2).sum := by
      intro df2
      induction df2 with
      | nil => rfl
      | cons row rows ih => simp [Function.comp, expandRowPure, ih]
    exact h2 df

/-- Witness for C2 on a two-row table: the first row holds one pair, the
second holds none and contributes no output row. -/
theorem claim_C2_row_expansion_witness :
    expandir_dataframe
      [[("ID", Cell.str "r1"), ("C", Cell.str "1º2'3\"S 4º5'6\"W")],
       [("ID", Cell.str "r2"), ("C", Cell.str "nothing")]] "C" =
      Except.ok
        [mergePonto [("ID", Cell.str "r1"), ("C", Cell.str "1º2'3\"S 4º5'6\"W")] 1
          { latitude := -((1 : ℚ) + 2/60 + 3/3600), longitude := -((4 : ℚ) + 5/60 + 6/3600),
            latitude_dms := "1º2'3\"S", longitude_dms := "4º5'6\"W" }] ∧
    ([mergePonto [("ID", Cell.str "r1"), ("C", Cell.str "1º2'3\"S 4º5'6\"W")] 1
        { latitude := -((1 : ℚ) + 2/60 + 3/3600), longitude := -((4 : ℚ) + 5/60 + 6/3600),
          latitude_dms := "1º2'3\"S", longitude_dms := "4º5'6\"W" }] : List Row).length =
      (([[("ID", Cell.str "r1"), ("C", Cell.str "1º2'3\"S 4º5'6\"W")],
         [("ID", Cell.str "r2"), ("C", Cell.str "nothing")]] : DataFrame).map
        fun row => (pairsOfRow "C" row).length).sum := by
  have hex1 : extrair_coordenadas (some "1º2'3\"S 4º5'6\"W") =
      Except.ok
        [{ latitude := -((1 : ℚ) + 2/60 + 3/3600), longitude := -((4 : ℚ) + 5/60 + 6/3600),
           latitude_dms := "1º2'3\"S", longitude_dms := "4º5'6\"W" }] :=
    extrair_eval _ [[['1'], ['2'], ['3'], ['S'], ['4'], ['5'], ['6'], ['W']]] _
      (by decide) (by decide)
      (mapM_one convMatch _ _ (by with_unfolding_all decide))
  have hr1 : expandRow "C" [("ID", Cell.str "r1"), ("C", Cell.str "1º2'3\"S 4º5'6\"W")] =
      Except.ok
        [mergePonto [("ID", Cell.str "r1"), ("C", Cell.str "1º2'3\"S 4º5'6\"W")] 1
          { latitude := -((1 : ℚ) + 2/60 + 3/3600), longitude := -((4 : ℚ) + 5/60 + 6/3600),
            latitude_dms := "1º2'3\"S", longitude_dms := "4º5'6\"W" }] :=
    expandRow_eval _ "C" _ _ (by decide) hex1
  have hex2 : extrair_coordenadas (some "nothing") = Except.ok [] := by decide
  have hr2 : expandRow "C" [("ID", Cell.str "r2"), ("C", Cell.str "nothing")] =
      Except.ok [] :=
    expandRow_eval _ "C" _ _ (by decide) hex2
  have h := expandir_eval_cons _ _ "C" _ _ hr1
    (expandir_eval_cons _ [] "C" _ _ hr2 (expandir_eval_nil "C"))
  exact ⟨h, (claim_C2_row_expansion _ _ _ h).2⟩

/-- C8: within each source row the emitted rows are labelled in 1-based
extraction order: the `i`-th emitted row of a source row is the row merged
with pair `i` and carries `PONTO = pontoLabel (i + 1)` (`"P01"`, `"P02"`,
…), restarting from 1 on every source row. -/
theorem claim_C8_point_labels (df : DataFrame) (coluna : String) (out : List Row)
    (h : expandir_dataframe df coluna = Except.ok out) :
    out = (df.map (expandRowPure coluna)).flatten ∧
    ∀ row ∈ df, ∀ i p, (pairsOfRow coluna row).get? i = some p →
      (expandRowPure coluna row).get? i = some (mergePonto row (i + 1) p) ∧
      dictLookup (mergePonto row (i + 1) p) "PONTO" =
        some (Cell.str (pontoLabel (i + 1))) := by
  refine ⟨expandir_ok_eq df coluna out h, ?_⟩
  intro row hrow i p hi
  refine ⟨?_, mergePonto_PONTO row (i + 1) p⟩
  unfold expandRowPure
  rw [List.get?_map, List.get?_enum, hi]
  rfl

/-- Witness for C8 on a one-row table with two pairs in the cell, checking
the second emitted row carries the label of index 2. -/
theorem claim_C8_point_labels_witness :
    expandir_dataframe
      [[("ID", Cell.str "r"), ("C", Cell.str "1º2'3S4º5'6W2º3'4S3º4'5W")]] "C" =
      Except.ok
        [mergePonto [("ID", Cell.str "r"), ("C", Cell.str "1º2'3S4º5'6W2º3'4S3º4'5W")] 1
          { latitude := -((1 : ℚ) + 2/60 + 3/3600), longitude := -((4 : ℚ) + 5/60 + 6/3600),
            latitude_dms := "1º2'3\"S", longitude_dms := "4º5'6\"W" },
         mergePonto [("ID", Cell.str "r"), ("C", Cell.str "1º2'3S4º5'6W2º3'4S3º4'5W")] 2
          { latitude := -((2 : ℚ) + 3/60 + 4/3600), longitude := -((3 : ℚ) + 4/60 + 5/3600),
            latitude_dms := "2º3'4\"S", longitude_dms := "3º4'5\"W" }] ∧
    (pairsOfRow "C"
        [("ID", Cell.str "r"), ("C", Cell.str "1º2'3S4º5'6W2º3'4S3º4'5W")]).get? 1 =
      some { latitude := -((2 : ℚ) + 3/60 + 4/3600), longitude := -((3 : ℚ) + 4/60 + 5/3600),
             latitude_dms := "2º3'4\"S", longitude_dms := "3º4'5\"W" } ∧
    dictLookup
      (mergePonto [("ID", Cell.str "r"), ("C", Cell.str "1º2'3S4º5'6W2º3'4S3º4'5W")] 2
        { latitude := -((2 : ℚ) + 3/60 + 4/3600), longitude := -((3 : ℚ) + 4/60 + 5/3600),
          latitude_dms := "2º3'4\"S", longitude_dms := "3º4'5\"W" })
      "PONTO" = some (Cell.str (pontoLabel 2)) ∧
    pontoLabel 2 = "P02" := by
  have hex : extrair_coordenadas (some "1º2'3S4º5'6W2º3'4S3º4'5W") =
      Except.ok
        [{ latitude := -((1 : ℚ) + 2/60 + 3/3600), longitude := -((4 : ℚ) + 5/60 + 6/3600),
           latitude_dms := "1º2'3\"S", longitude_dms := "4º5'6\"W" },
         { latitude := -((2 : ℚ) + 3/60 + 4/3600), longitude := -((3 : ℚ) + 4/60 + 5/3600),
           latitude_dms := "2º3'4\"S", longitude_dms := "3º4'5\"W" }] :=
    extrair_eval _
      [[['1'], ['2'], ['3'], ['S'], ['4'], ['5'], ['6'], ['W']],
       [['2'], ['3'], ['4'], ['S'], ['3'], ['4'], ['5'], ['W']]] _
      (by decide) (by decide)
      (mapM_two convMatch _ _ _ _ (by with_unfolding_all decide)
        (by with_unfolding_all decide))
  have hrow : expandRow "C"
      [("ID", Cell.str "r"), ("C", Cell.str "1º2'3S4º5'6W2º3'4S3º4'5W")] =
      Except.ok
        [mergePonto [("ID", Cell.str "r"), ("C", Cell.str "1º2'3S4º5'6W2º3'4S3º4'5W")] 1
          { latitude := -((1 : ℚ) + 2/60 + 3/3600), longitude := -((4 : ℚ) + 5/60 + 6/3600),
            latitude_dms := "1º2'3\"S", longitude_dms := "4º5'6\"W" },
         mergePonto [("ID", Cell.str "r"), ("C", Cell.str "1º2'3S4º5'6W2º3'4S3º4'5W")] 2
          { latitude := -((2 : ℚ) + 3/60 + 4/3600), longitude := -((3 : ℚ) + 4/60 + 5/3600),
            latitude_dms := "2º3'4\"S", longitude_dms := "3º4'5\"W" }] :=
    expandRow_eval _ "C" _ _ (by decide) hex
  have h := expandir_eval_cons _ [] "C" _ _ hrow (expandir_eval_nil "C")
  have hpairs : pairsOfRow "C"
      [("ID", Cell.str "r"), ("C", Cell.str "1º2'3S4º5'6W2º3'4S3º4'5W")] =
      [{ latitude := -((1 : ℚ) + 2/60 + 3/3600), longitude := -((4 : ℚ) + 5/60 + 6/3600),
         latitude_dms := "1º2'3\"S", longitude_dms := "4º5'6\"W" },
       { latitude := -((2 : ℚ) + 3/60 + 4/3600), longitude := -((3 : ℚ) + 4/60 + 5/3600),
         latitude_dms := "2º3'4\"S", longitude_dms := "3º4'5\"W" }] :=
    pairsOfRow_eval _ "C" _ _ (by decide) hex
  have hget : (pairsOfRow "C"
      [("ID", Cell.str "r"), ("C", Cell.str "1º2'3S4º5'6W2º3'4S3º4'5W")]).get? 1 =
      some { latitude := -((2 : ℚ) + 3/60 + 4/3600), longitude := -((3 : ℚ) + 4/60 + 5/3600),
             latitude_dms := "2º3'4\"S", longitude_dms := "3º4'5\"W" } := by
    rw [hpairs]
    rfl
  refine ⟨h, hget, ?_, by decide⟩
  exact ((claim_C8_point_labels _ _ _ h).2 _ (by simp) 1 _ hget).2

/-- C10 (amended): every emitted row is a source row merged with the five
new fields; every source field whose name is NOT one of the five reserved
names keeps its binding verbatim (absent keys stay absent), and the five
fields are always present — but a source column named like one of the five
is overwritten, not preserved. -/
theorem claim_C10_frame (df : DataFrame) (coluna : String) (out : List Row)
    (h : expandir_dataframe df coluna = Except.ok out) :
    ∀ d ∈ out, ∃ row, row ∈ df ∧ ∃ i p, d = mergePonto row i p ∧
      (∀ k, k ≠ "PONTO" → k ≠ "LATITUDE" → k ≠ "LONGITUDE" → k ≠ "LATITUDE_DMS" →
        k ≠ "LONGITUDE_DMS" → dictLookup d k = dictLookup row k) ∧
      dictLookup d "PONTO" = some (Cell.str (pontoLabel i)) ∧
      dictLookup d "LATITUDE" = some (Cell.rat p.latitude) ∧
      dictLookup d "LONGITUDE" = some (Cell.rat p.longitude) ∧
      dictLookup d "LATITUDE_DMS" = some (Cell.str p.latitude_dms) ∧
      dictLookup d "LONGITUDE_DMS" = some (Cell.str p.longitude_dms) := by
  intro d hd
  rw [expandir_ok_eq df coluna out h, List.mem_flatten] at hd
  obtain ⟨l2, hl2, hdl⟩ := hd
  rw [List.mem_map] at hl2
  obtain ⟨row, hrow, rfl⟩ := hl2
  unfold expandRowPure at hdl
  rw [List.mem_map] at hdl
  obtain ⟨ip, hip, rfl⟩ := hdl
  exact ⟨row, hrow, ip.1 + 1, ip.2, rfl,
    fun k h1 h2 h3 h4 h5 => mergePonto_other row (ip.1 + 1) ip.2 k h1 h2 h3 h4 h5,
    mergePonto_PONTO row (ip.1 + 1) ip.2,
    mergePonto_LATITUDE row (ip.1 + 1) ip.2,
    mergePonto_LONGITUDE row (ip.1 + 1) ip.2,
    mergePonto_LATITUDE_DMS row (ip.1 + 1) ip.2,
    mergePonto_LONGITUDE_DMS row (ip.1 + 1) ip.2⟩

/-- C10 counterexample: a source row that already has a `PONTO` column does
NOT keep its original value — the merge overwrites it with the point label,
so "all original fields copied verbatim and unchanged" fails when a source
column collides with one of the five added names. -/
theorem claim_C10_counterexample :
    expandir_dataframe
      [[("PONTO", Cell.str "orig"), ("C", Cell.str "1º2'3\"S 4º5'6\"W")]] "C" =
      Except.ok
        [mergePonto [("PONTO", Cell.str "orig"), ("C", Cell.str "1º2'3\"S 4º5'6\"W")] 1
          { latitude := -((1 : ℚ) + 2/60 + 3/3600), longitude := -((4 : ℚ) + 5/60 + 6/3600),
            latitude_dms := "1º2'3\"S", longitude_dms := "4º5'6\"W" }] ∧
    dictLookup [("PONTO", Cell.str "orig"), ("C", Cell.str "1º2'3\"S 4º5'6\"W")] "PONTO" =
      some (Cell.str "orig") ∧
    dictLookup
      (mergePonto [("PONTO", Cell.str "orig"), ("C", Cell.str "1º2'3\"S 4º5'6\"W")] 1
        { latitude := -((1 : ℚ) + 2/60 + 3/3600), longitude := -((4 : ℚ) + 5/60 + 6/3600),
          latitude_dms := "1º2'3\"S", longitude_dms := "4º5'6\"W" })
      "PONTO" = some (Cell.str "P01") ∧
    Cell.str "P01" ≠ Cell.str "orig" := by
  have hex : extrair_coordenadas (some "1º2'3\"S 4º5'6\"W") =
      Except.ok
        [{ latitude := -((1 : ℚ) + 2/60 + 3/3600), longitude := -((4 : ℚ) + 5/60 + 6/3600),
           latitude_dms := "1º2'3\"S", longitude_dms := "4º5'6\"W" }] :=
    extrair_eval _ [[['1'], ['2'], ['3'], ['S'], ['4'], ['5'], ['6'], ['W']]] _
      (by decide) (by decide)
      (mapM_one convMatch _ _ (by with_unfolding_all decide))
  have hrow : expandRow "C" [("PONTO", Cell.str "orig"), ("C", Cell.str "1º2'3\"S 4º5'6\"W")] =
      Except.ok
        [mergePonto [("PONTO", Cell.str "orig"), ("C", Cell.str "1º2'3\"S 4º5'6\"W")] 1
          { latitude := -((1 : ℚ) + 2/60 + 3/3600), longitude := -((4 : ℚ) + 5/60 + 6/3600),
            latitude_dms := "1º2'3\"S", longitude_dms := "4º5'6\"W" }] :=
    expandRow_eval _ "C" _ _ (by decide) hex
  have h := expandir_eval_cons _ [] "C" _ _ hrow (expandir_eval_nil "C")
  refine ⟨h, by decide, ?_, by decide⟩
  rw [mergePonto_PONTO, show pontoLabel 1 = "P01" from by decide]

/-- Witness for C10 (amended) on a one-row table with a non-colliding
column `NAME`. -/
theorem claim_C10_frame_witness :
    expandir_dataframe [[("NAME", Cell.str "x"), ("C", Cell.str "2º3'4\"S 6º5'4\"W")]] "C" =
      Except.ok
        [mergePonto [("NAME", Cell.str "x"), ("C", Cell.str "2º3'4\"S 6º5'4\"W")] 1
          { latitude := -((2 : ℚ) + 3/60 + 4/3600), longitude := -((6 : ℚ) + 5/60 + 4/3600),
            latitude_dms := "2º3'4\"S", longitude_dms := "6º5'4\"W" }] ∧
    (∃ row, row ∈ ([[("NAME", Cell.str "x"), ("C", Cell.str "2º3'4\"S 6º5'4\"W")]] : DataFrame) ∧
      ∃ i p,
        mergePonto [("NAME", Cell.str "x"), ("C", Cell.str "2º3'4\"S 6º5'4\"W")] 1
          { latitude := -((2 : ℚ) + 3/60 + 4/3600), longitude := -((6 : ℚ) + 5/60 + 4/3600),
            latitude_dms := "2º3'4\"S", longitude_dms := "6º5'4\"W" } = mergePonto row i p ∧
        (∀ k, k ≠ "PONTO" → k ≠ "LATITUDE" → k ≠ "LONGITUDE" → k ≠ "LATITUDE_DMS" →
          k ≠ "LONGITUDE_DMS" →
          dictLookup
            (mergePonto [("NAME", Cell.str "x"), ("C", Cell.str "2º3'4\"S 6º5'4\"W")] 1
              { latitude := -((2 : ℚ) + 3/60 + 4/3600), longitude := -((6 : ℚ) + 5/60 + 4/3600),
                latitude_dms := "2º3'4\"S", longitude_dms := "6º5'4\"W" }) k =
            dictLookup row k) ∧
        dictLookup
          (mergePonto [("NAME", Cell.str "x"), ("C", Cell.str "2º3'4\"S 6º5'4\"W")] 1
            { latitude := -((2 : ℚ) + 3/60 + 4/3600), longitude := -((6 : ℚ) + 5/60 + 4/3600),
              latitude_dms := "2º3'4\"S", longitude_dms := "6º5'4\"W" }) "PONTO" =
          some (Cell.str (pontoLabel i)) ∧
        dictLookup
          (mergePonto [("NAME", Cell.str "x"), ("C", Cell.str "2º3'4\"S 6º5'4\"W")] 1
            { latitude := -((2 : ℚ) + 3/60 + 4/3600), longitude := -((6 : ℚ) + 5/60 + 4/3600),
              latitude_dms := "2º3'4\"S", longitude_dms := "6º5'4\"W" }) "LATITUDE" =
          some (Cell.rat p.latitude) ∧
        dictLookup
          (mergePonto [("NAME", Cell.str "x"), ("C", Cell.str "2º3'4\"S 6º5'4\"W")] 1
            { latitude := -((2 : ℚ) + 3/60 + 4/3600), longitude := -((6 : ℚ) + 5/60 + 4/3600),
              latitude_dms := "2º3'4\"S", longitude_dms := "6º5'4\"W" }) "LONGITUDE" =
          some (Cell.rat p.longitude) ∧
        dictLookup
          (mergePonto [("NAME", Cell.str "x"), ("C", Cell.str "2º3'4\"S 6º5'4\"W")] 1
            { latitude := -((2 : ℚ) + 3/60 + 4/3600), longitude := -((6 : ℚ) + 5/60 + 4/3600),
              latitude_dms := "2º3'4\"S", longitude_dms := "6º5'4\"W" }) "LATITUDE_DMS" =
          some (Cell.str p.latitude_dms) ∧
        dictLookup
          (mergePonto [("NAME", Cell.str "x"), ("C", Cell.str "2º3'4\"S 6º5'4\"W")] 1
            { latitude := -((2 : ℚ) + 3/60 + 4/3600), longitude := -((6 : ℚ) + 5/60 + 4/3600),
              latitude_dms := "2º3'4\"S", longitude_dms := "6º5'4\"W" }) "LONGITUDE_DMS" =
          some (Cell.str p.longitude_dms)) := by
  have hex : extrair_coordenadas (some "2º3'4\"S 6º5'4\"W") =
      Except.ok
        [{ latitude := -((2 : ℚ) + 3/60 + 4/3600), longitude := -((6 : ℚ) + 5/60 + 4/3600),
           latitude_dms := "2º3'4\"S", longitude_dms := "6º5'4\"W" }] :=
    extrair_eval _ [[['2'], ['3'], ['4'], ['S'], ['6'], ['5'], ['4'], ['W']]] _
      (by decide) (by decide)
      (mapM_one convMatch _ _ (by with_unfolding_all decide))
  have hrow : expandRow "C" [("NAME", Cell.str "x"), ("C", Cell.str "2º3'4\"S 6º5'4\"W")] =
      Except.ok
        [mergePonto [("NAME", Cell.str "x"), ("C", Cell.str "2º3'4\"S 6º5'4\"W")] 1
          { latitude := -((2 : ℚ) + 3/60 + 4/3600), longitude := -((6 : ℚ) + 5/60 + 4/3600),
            latitude_dms := "2º3'4\"S", longitude_dms := "6º5'4\"W" }] :=
    expandRow_eval _ "C" _ _ (by decide) hex
  have h := expandir_eval_cons _ [] "C" _ _ hrow (expandir_eval_nil "C")
  exact ⟨h, claim_C10_frame _ _ _ h _ (by simp)⟩
